import Mathlib

/-!
Verification development for the error-log analysis engine of the
`claude-commands` repository (`src/commands/py/analyze-errors/__init__.py`).

The Python module is shallowly embedded: every regular expression of the
source is translated into an explicit AST (`Regex`) and run by a
backtracking matcher (`mtch`) that mirrors CPython `re` preference order
(leftmost start position, alternation tries the left branch first, greedy
quantifiers try the longest repetition first, lazy ones the shortest).
All quantified subexpressions in the source operate on single character
classes, which the AST enforces, keeping the matcher structurally
recursive.  Fallible Python operations (`m.group` on an out-of-range
index, `int()` on a non-numeric string, `str + non-str`) are modelled in
the `Except String` monad.  Unicode-only corners (non-ASCII case folding,
surrogate escapes in JSON strings, float formatting of JSON numbers) are
outside the model and are not exercised by any theorem.
-/

set_option maxRecDepth 16384

namespace AnalyzeErrors

/-- Character classes occurring in the source's regular expressions:
a literal character, Python `\w`, `\d`, `.` (anything but newline),
`[^"]`, and `['\"]` (an apostrophe or a double quote). -/
inductive CharCls where
  | lit (c : Char)
  | word
  | digit
  | dot
  | notQuote
  | quote2
deriving DecidableEq

/-- Does character `d` fall in class `k`?  `ci` is Python's
`re.IGNORECASE` (ASCII case folding, which covers every input the
analysis touches). -/
def charMatches (ci : Bool) : CharCls → Char → Bool
  | .lit c, d => if ci then c.toLower == d.toLower else c == d
  | .word, d => d.isAlphanum || d == '_'
  | .digit, d => d.isDigit
  | .dot, d => d != '\n'
  | .notQuote, d => d != '"'
  | .quote2, d => d == '\'' || d == '"'

/-- Regular-expression ASTs for the source's patterns.  Repetition
(`star`) is restricted to a single character class, which is the only
shape the source uses (`\w+`, `\d+`, `.+`, `.*`, `[^"]+`, `.*?`, `.+?`,
`\d\x7b3\x7d`); `greedy = false` is a lazy quantifier. -/
inductive Regex where
  | eps
  | cls (k : CharCls)
  | seq (r1 r2 : Regex)
  | alt (r1 r2 : Regex)
  | star (greedy : Bool) (k : CharCls)
  | grp (i : Nat) (r : Regex)
deriving DecidableEq

/-- Literal string as a regex (a chain of literal characters). -/
def rstr (s : String) : Regex :=
  s.data.foldr (fun c r => .seq (.cls (.lit c)) r) .eps

/-- Concatenation of a list of regexes. -/
def rcat (l : List Regex) : Regex := l.foldr .seq .eps

/-- Python `k+` / `k+?`: one occurrence, then a star. -/
def plus1 (g : Bool) (k : CharCls) : Regex := .seq (.cls k) (.star g k)

/-- Python `r?` (greedy option: try `r` first, then the empty match). -/
def ropt (r : Regex) : Regex := .alt r .eps

/-- Capture map: group index to captured characters (Python's
`m.group(i)`, `none` when the group did not participate). -/
def Caps := Nat → Option (List Char)

def Caps.empty : Caps := fun _ => none

def Caps.set (c : Caps) (i : Nat) (v : List Char) : Caps :=
  fun j => if j = i then some v else c j

/-- Try the continuation after dropping `n` characters, for each `n` in
the candidate list, in order; used for the repetition counts of `star`. -/
def tryStar {α : Type} (s : List Char) (c : Caps)
    (k : List Char → Caps → Option α) : List Nat → Option α
  | [] => none
  | n :: ns => (k (s.drop n) c).orElse fun _ => tryStar s c k ns

/-- The backtracking matcher, in continuation-passing style.  `mtch ci r
s c k` tries to match `r` against a prefix of `s` with capture map `c`,
calling `k` on the remaining suffix and updated captures for each way to
match, in CPython `re` preference order, and returns the first success. -/
def mtch {α : Type} (ci : Bool) : Regex → List Char → Caps →
    (List Char → Caps → Option α) → Option α
  | .eps, s, c, k => k s c
  | .cls _, [], _, _ => none
  | .cls kc, a :: s, c, k => if charMatches ci kc a then k s c else none
  | .seq r1 r2, s, c, k => mtch ci r1 s c fun s' c' => mtch ci r2 s' c' k
  | .alt r1 r2, s, c, k => (mtch ci r1 s c k).orElse fun _ => mtch ci r2 s c k
  | .star g kc, s, c, k =>
      let m := (s.takeWhile (charMatches ci kc)).length
      tryStar s c k (if g then (List.range (m + 1)).reverse else List.range (m + 1))
  | .grp i r, s, c, k =>
      mtch ci r s c fun s' c' => k s' (c'.set i (s.take (s.length - s'.length)))

/-- Match `r` anchored at the start of `s`: the matched text (Python's
`m.group(0)`) and the captures of the preferred match. -/
def matchHere (ci : Bool) (r : Regex) (s : List Char) :
    Option (List Char × Caps) :=
  mtch ci r s Caps.empty fun s' c => some (s.take (s.length - s'.length), c)

/-- Python `re.search` over a character list: try every start position
from the left, return the first position's preferred match. -/
def searchAux (ci : Bool) (r : Regex) : List Char → Option (List Char × Caps)
  | [] => matchHere ci r []
  | a :: t => (matchHere ci r (a :: t)).orElse fun _ => searchAux ci r t

/-- Python `re.search(r, s)` (with `re.IGNORECASE` when `ci`). -/
def search (ci : Bool) (r : Regex) (s : String) : Option (List Char × Caps) :=
  searchAux ci r s.data

/-- Python `re.finditer`, fuelled: scan left to right, emit each
non-overlapping match with its absolute start position, resume after the
matched text (advancing at least one character).  Fuel `s.length + 1`
always suffices since every step consumes input or stops. -/
def finditerAux (ci : Bool) (r : Regex) : Nat → List Char → Nat →
    List (Nat × List Char × Caps)
  | 0, _, _ => []
  | fuel + 1, s, pos =>
    match matchHere ci r s with
    | some (m, c) =>
      if s.isEmpty then [(pos, m, c)]
      else (pos, m, c) ::
        finditerAux ci r fuel (s.drop (max m.length 1)) (pos + max m.length 1)
    | none =>
      match s with
      | [] => []
      | _ :: t => finditerAux ci r fuel t (pos + 1)

/-- Python `re.finditer(r, s)`. -/
def finditer (ci : Bool) (r : Regex) (s : String) :
    List (Nat × List Char × Caps) :=
  finditerAux ci r (s.data.length + 1) s.data 0

/-- Number of capturing groups of a pattern (Python `re.Pattern.groups`;
the source numbers its groups 1, 2, … consecutively). -/
def Regex.ngroups : Regex → Nat
  | .eps | .cls _ | .star _ _ => 0
  | .seq a b | .alt a b => max a.ngroups b.ngroups
  | .grp i r => max i r.ngroups

/-- Python `re.Match` as the explanation producers see it: the matched
text (`m.group(0)`), the pattern's group count, and the captures. -/
structure PyMatch where
  group0 : String
  ngroups : Nat
  caps : Nat → Option String

/-- Package a raw match of `r` into a `PyMatch`. -/
def toPyMatch (r : Regex) (m : List Char) (c : Caps) : PyMatch :=
  ⟨String.mk m, r.ngroups, fun i => (c i).map String.mk⟩

/-- Python `m.group(i)`: `IndexError` past the pattern's group count,
otherwise the capture (`none` = Python `None`). -/
def pyGroup (m : PyMatch) (i : Nat) : Except String (Option String) :=
  if i = 0 then .ok (some m.group0)
  else if i ≤ m.ngroups then .ok (m.caps i)
  else .error "IndexError: no such group"

/-- F-string interpolation of a possibly-`None` group. -/
def interp (g : Option String) : String := g.getD "None"

def isPyWs (c : Char) : Bool :=
  c == ' ' || c == '\t' || c == '\n' || c == '\r'

def stripEnds (s : List Char) : List Char :=
  ((s.dropWhile isPyWs).reverse.dropWhile isPyWs).reverse

def digitsVal (ds : List Char) : Nat :=
  ds.foldl (fun a c => a * 10 + (c.toNat - 48)) 0

def intDigits (ds : List Char) : Except String Int :=
  if !ds.isEmpty && ds.all Char.isDigit then .ok (digitsVal ds : Nat)
  else .error "ValueError: invalid literal for int() with base 10"

/-- Python `int(s)` on a string: strip surrounding whitespace, optional
sign, decimal digits (digit-group underscores are not modelled; no
argument in this program ever contains one). -/
def pyInt (s : String) : Except String Int :=
  match stripEnds s.data with
  | [] => intDigits []
  | c :: ds =>
    if c == '+' then intDigits ds
    else if c == '-' then (intDigits ds).map (fun n => -n)
    else intDigits (c :: ds)

/-- Python `int(m.group(i))` when the group may be `None`. -/
def pyIntOfGroup : Option String → Except String Int
  | none => .error "TypeError: int() argument must be a string, not 'NoneType'"
  | some s => pyInt s

/-- Source lines 141-156: `get_http_error_explanation`, the fixed
status-code table with its generic fallback. -/
def get_http_error_explanation (status_code : Int) : String :=
  if status_code = 400 then
    "Bad Request - The server couldn't understand the request. Check request format."
  else if status_code = 401 then
    "Unauthorized - Authentication required. Check API keys or login credentials."
  else if status_code = 403 then
    "Forbidden - Access denied. Check permissions and authorization."
  else if status_code = 404 then
    "Not Found - The resource doesn't exist. Verify the URL."
  else if status_code = 405 then
    "Method Not Allowed - Wrong HTTP method. Check if using GET/POST/PUT/DELETE correctly."
  else if status_code = 408 then
    "Request Timeout - The request took too long. Try again or increase timeout."
  else if status_code = 429 then
    "Too Many Requests - Rate limited. Implement backoff and retry logic."
  else if status_code = 500 then
    "Internal Server Error - Server-side issue. Check server logs."
  else if status_code = 502 then
    "Bad Gateway - Proxy/load balancer issue. Check upstream services."
  else if status_code = 503 then
    "Service Unavailable - Server is overloaded or under maintenance."
  else if status_code = 504 then
    "Gateway Timeout - Upstream server didn't respond in time."
  else
    "HTTP error " ++ toString status_code ++ ". Check the API documentation."

/-! Compiled forms of the source's `ERROR_PATTERNS` regexes, in registry
order (source lines 57-138). -/

def reModuleNotFound : Regex := rcat
  [rstr "ModuleNotFoundError: No module named '", .grp 1 (plus1 true .word), rstr "'"]

def reImportError : Regex := rcat
  [rstr "ImportError: cannot import name '", .grp 1 (plus1 true .word),
   rstr "' from '", .grp 2 (plus1 true .word), rstr "'"]

def reTypeErrorArity : Regex := rcat
  [rstr "TypeError: ", .grp 1 (plus1 true .word), rstr "() takes ",
   .grp 2 (plus1 true .digit), rstr " positional argument", ropt (.cls (.lit 's')),
   rstr " but ", .grp 3 (plus1 true .digit), rstr " ",
   .alt (rstr "was") (rstr "were"), rstr " given"]

def reAttributeError : Regex := rcat
  [rstr "AttributeError: '", .grp 1 (plus1 true .word),
   rstr "' object has no attribute '", .grp 2 (plus1 true .word), rstr "'"]

def reKeyError : Regex := rcat
  [rstr "KeyError: ", ropt (.cls .quote2), .grp 1 (plus1 true .word),
   ropt (.cls .quote2)]

def reValueError : Regex := rcat
  [rstr "ValueError: ", .grp 1 (plus1 true .dot)]

def reFileNotFound : Regex := rcat
  [rstr "FileNotFoundError: [Errno 2] No such file or directory: ",
   .cls .quote2, .grp 1 (plus1 true .dot), .cls .quote2]

def rePermissionError : Regex := rcat
  [rstr "PermissionError: [Errno 13] Permission denied: ",
   .cls .quote2, .grp 1 (plus1 true .dot), .cls .quote2]

def reReferenceError : Regex := rcat
  [rstr "ReferenceError: ", .grp 1 (plus1 true .word), rstr " is not defined"]

def reCannotRead : Regex := rcat
  [rstr "TypeError: Cannot read propert", .alt (rstr "y") (rstr "ies"), rstr " ",
   ropt (.cls .quote2), .grp 1 (plus1 true .word), ropt (.cls .quote2),
   rstr " of ", .grp 2 (.alt (rstr "undefined") (rstr "null"))]

def reSyntaxError : Regex := rcat
  [rstr "SyntaxError: Unexpected token ", .grp 1 (plus1 true .dot)]

def reEnoent : Regex := rcat
  [rstr "Error: ENOENT: no such file or directory, ",
   .alt (rstr "open") (rstr "stat"), rstr " ",
   .cls .quote2, .grp 1 (plus1 true .dot), .cls .quote2]

def reCannotFindModule : Regex := rcat
  [rstr "Error: Cannot find module ", .cls .quote2, .grp 1 (plus1 true .dot),
   .cls .quote2]

def reOperationalError : Regex := rcat
  [ropt (rstr "psycopg2."), rstr "OperationalError", .star true .dot,
   rstr "connection", .star true .dot, rstr "refused"]

def reSqliteUnique : Regex := rcat
  [ropt (rstr "sqlite3."), rstr "IntegrityError", .star true .dot,
   rstr "UNIQUE constraint failed: ", .grp 1 (plus1 true .word), rstr ".",
   .grp 2 (plus1 true .word)]

def reMysqlDuplicate : Regex := rcat
  [ropt (rstr "mysql.connector."), rstr "IntegrityError", .star true .dot,
   rstr "Duplicate entry"]

def reConnRefused : Regex :=
  .alt (rstr "ConnectionRefusedError") (rstr "ECONNREFUSED")

def reTimeout : Regex :=
  .alt (rstr "TimeoutError") (rstr "ETIMEDOUT")

def reHttpError : Regex := rcat
  [ropt (rstr "requests.exceptions."), rstr "HTTPError", .star true .dot,
   .grp 1 (rcat [.cls .digit, .cls .digit, .cls .digit])]

/-! The explanation producers: the source's lambdas, one per signature,
in the `Except String` monad so that a Python exception inside a
producer is observable. -/

def explModuleNotFound (m : PyMatch) : Except String String := do
  let g1 ← pyGroup m 1
  .ok ("Python module '" ++ interp g1 ++ "' is not installed. Try: pip install "
        ++ interp g1)

def explImportError (m : PyMatch) : Except String String := do
  let g1 ← pyGroup m 1
  let g2 ← pyGroup m 2
  .ok ("Cannot import '" ++ interp g1 ++ "' from '" ++ interp g2 ++
        "'. Check if it exists or if there's a circular import.")

def explTypeErrorArity (m : PyMatch) : Except String String := do
  let g1 ← pyGroup m 1
  let g2 ← pyGroup m 2
  let g3 ← pyGroup m 3
  .ok ("Function '" ++ interp g1 ++ "' expects " ++ interp g2 ++
        " argument(s) but received " ++ interp g3 ++ ".")

def explAttributeError (m : PyMatch) : Except String String := do
  let g1 ← pyGroup m 1
  let g2 ← pyGroup m 2
  .ok ("Object of type '" ++ interp g1 ++ "' doesn't have attribute '" ++ interp g2
        ++ "'. Check spelling or if the object is the correct type.")

def explKeyError (m : PyMatch) : Except String String := do
  let g1 ← pyGroup m 1
  .ok ("Dictionary key '" ++ interp g1 ++
        "' not found. Use .get() for safe access or check if key exists.")

def explValueError (m : PyMatch) : Except String String := do
  let g1 ← pyGroup m 1
  .ok ("Invalid value: " ++ interp g1 ++ ". Validate input data before processing.")

def explFileNotFound (m : PyMatch) : Except String String := do
  let g1 ← pyGroup m 1
  .ok ("File not found: '" ++ interp g1 ++
        "'. Check the path exists and has correct permissions.")

def explPermissionError (m : PyMatch) : Except String String := do
  let g1 ← pyGroup m 1
  .ok ("Permission denied for: '" ++ interp g1 ++
        "'. Check file permissions or run with elevated privileges.")

def explReferenceError (m : PyMatch) : Except String String := do
  let g1 ← pyGroup m 1
  .ok ("Variable '" ++ interp g1 ++
        "' is not defined. Check for typos or ensure it's in scope.")

def explCannotRead (m : PyMatch) : Except String String := do
  let g1 ← pyGroup m 1
  let g2 ← pyGroup m 2
  .ok ("Tried to access '" ++ interp g1 ++ "' on " ++ interp g2 ++
        ". Add null checks or optional chaining (?.).")

def explSyntaxError (m : PyMatch) : Except String String := do
  let g1 ← pyGroup m 1
  .ok ("Syntax error: unexpected '" ++ interp g1 ++
        "'. Check for missing brackets, quotes, or semicolons.")

def explEnoent (m : PyMatch) : Except String String := do
  let g1 ← pyGroup m 1
  .ok ("Node.js cannot find file: '" ++ interp g1 ++ "'. Verify the path exists.")

/-- Source line 110: the producer calls `m.group(1).split('/')[0]`, an
`AttributeError` when the group were `None` (it never is, see
`binds_reCannotFindModule`); `split('/')[0]` is the prefix before the
first slash. -/
def explCannotFindModule (m : PyMatch) : Except String String := do
  let g1 ← pyGroup m 1
  match g1 with
  | none => .error "AttributeError: 'NoneType' object has no attribute 'split'"
  | some s =>
    .ok ("Node module '" ++ s ++ "' not found. Try: npm install " ++
          String.mk (s.data.takeWhile (fun c => c != '/')))

def explOperationalError (_ : PyMatch) : Except String String :=
  .ok "Database connection refused. Check if the database server is running and accessible."

def explSqliteUnique (m : PyMatch) : Except String String := do
  let g1 ← pyGroup m 1
  let g2 ← pyGroup m 2
  .ok ("Duplicate value in " ++ interp g1 ++ "." ++ interp g2 ++
        ". The value must be unique.")

def explMysqlDuplicate (_ : PyMatch) : Except String String :=
  .ok "Duplicate entry violates unique constraint. Check for existing records."

def explConnRefused (_ : PyMatch) : Except String String :=
  .ok "Connection refused. The target service may be down or the port may be wrong."

def explTimeout (_ : PyMatch) : Except String String :=
  .ok "Connection timed out. Check network connectivity and service availability."

def explHttpError (m : PyMatch) : Except String String := do
  let g1 ← pyGroup m 1
  let n ← pyIntOfGroup g1
  .ok (get_http_error_explanation n)

/-- One entry of the registry: the pattern's source text (kept verbatim
for the `pattern` field of a `MatchedError`), its compiled form, and the
explanation producer. -/
structure ErrorSig where
  pattern : String
  regex : Regex
  explain : PyMatch → Except String String

/-- Source lines 57-138: the ordered signature registry. -/
def ERROR_PATTERNS : List ErrorSig :=
  [⟨"ModuleNotFoundError: No module named '(\\w+)'", reModuleNotFound, explModuleNotFound⟩,
   ⟨"ImportError: cannot import name '(\\w+)' from '(\\w+)'", reImportError, explImportError⟩,
   ⟨"TypeError: (\\w+)\\(\\) takes (\\d+) positional arguments? but (\\d+) (?:was|were) given",
      reTypeErrorArity, explTypeErrorArity⟩,
   ⟨"AttributeError: '(\\w+)' object has no attribute '(\\w+)'", reAttributeError, explAttributeError⟩,
   ⟨"KeyError: ['\\\"]?(\\w+)['\\\"]?", reKeyError, explKeyError⟩,
   ⟨"ValueError: (.+)", reValueError, explValueError⟩,
   ⟨"FileNotFoundError: \\[Errno 2\\] No such file or directory: ['\\\"](.+)['\\\"]",
      reFileNotFound, explFileNotFound⟩,
   ⟨"PermissionError: \\[Errno 13\\] Permission denied: ['\\\"](.+)['\\\"]",
      rePermissionError, explPermissionError⟩,
   ⟨"ReferenceError: (\\w+) is not defined", reReferenceError, explReferenceError⟩,
   ⟨"TypeError: Cannot read propert(?:y|ies) ['\\\"]?(\\w+)['\\\"]? of (undefined|null)",
      reCannotRead, explCannotRead⟩,
   ⟨"SyntaxError: Unexpected token (.+)", reSyntaxError, explSyntaxError⟩,
   ⟨"Error: ENOENT: no such file or directory, (?:open|stat) ['\\\"](.+)['\\\"]",
      reEnoent, explEnoent⟩,
   ⟨"Error: Cannot find module ['\\\"](.+)['\\\"]", reCannotFindModule, explCannotFindModule⟩,
   ⟨"(?:psycopg2\\.)?OperationalError.*connection.*refused", reOperationalError, explOperationalError⟩,
   ⟨"(?:sqlite3\\.)?IntegrityError.*UNIQUE constraint failed: (\\w+)\\.(\\w+)",
      reSqliteUnique, explSqliteUnique⟩,
   ⟨"(?:mysql\\.connector\\.)?IntegrityError.*Duplicate entry", reMysqlDuplicate, explMysqlDuplicate⟩,
   ⟨"ConnectionRefusedError|ECONNREFUSED", reConnRefused, explConnRefused⟩,
   ⟨"TimeoutError|ETIMEDOUT", reTimeout, explTimeout⟩,
   ⟨"(?:requests\\.exceptions\\.)?HTTPError.*(\\d\x7b3\x7d)", reHttpError, explHttpError⟩]

/-! A model of `json.loads` (strict decoder), deep enough for format
detection and the analyzer's message/error/stack rewrite.  Numbers keep
their source lexeme (Python float formatting is not modelled; no claim
evaluates a numeric field).  A `\uXXXX` escape becomes the scalar value
when valid (surrogate pairing is not modelled). -/

/-- A parsed JSON value as Python materialises it.  Objects keep their
key/value pairs in parse order; lookup takes the last occurrence, as a
Python dict built left to right does. -/
inductive PyJson where
  | null
  | boolean (b : Bool)
  | num (lexeme : String)
  | str (s : String)
  | arr (elems : List PyJson)
  | obj (fields : List (String × PyJson))

def isJsonWs (c : Char) : Bool :=
  c == ' ' || c == '\t' || c == '\n' || c == '\r'

def skipWs (s : List Char) : List Char := s.dropWhile isJsonWs

def hexVal (c : Char) : Option Nat :=
  if c.isDigit then some (c.toNat - 48)
  else if 'a' ≤ c && c ≤ 'f' then some (c.toNat - 87)
  else if 'A' ≤ c && c ≤ 'F' then some (c.toNat - 55)
  else none

def parseHex4 : List Char → Option (Nat × List Char)
  | a :: b :: c :: d :: r => do
    let va ← hexVal a
    let vb ← hexVal b
    let vc ← hexVal c
    let vd ← hexVal d
    some (((va * 16 + vb) * 16 + vc) * 16 + vd, r)
  | _ => none

/-- JSON number grammar `-?(0|[1-9][0-9]*)(\.[0-9]+)?([eE][+-]?[0-9]+)?`;
returns the lexeme and the rest. -/
def parseNumber (s : List Char) : Option (PyJson × List Char) :=
  let core : List Char → Option (List Char × List Char) := fun t =>
    match t with
    | c :: r =>
      if c == '0' then some ([c], r)
      else if c.isDigit then
        some (c :: r.takeWhile Char.isDigit, r.dropWhile Char.isDigit)
      else none
    | [] => none
  let fracExp : List Char → List Char × List Char := fun t =>
    let (fr, t1) :=
      match t with
      | '.' :: u =>
        if (u.takeWhile Char.isDigit).isEmpty then ([], t)
        else ('.' :: u.takeWhile Char.isDigit, u.dropWhile Char.isDigit)
      | _ => ([], t)
    let (ex, t2) :=
      match t1 with
      | e :: u =>
        if e == 'e' || e == 'E' then
          let (sgn, u1) :=
            match u with
            | c :: u1 => if c == '+' || c == '-' then ([c], u1) else ([], u)
            | [] => ([], u)
          if (u1.takeWhile Char.isDigit).isEmpty then ([], t1)
          else (e :: (sgn ++ u1.takeWhile Char.isDigit), u1.dropWhile Char.isDigit)
        else ([], t1)
      | [] => ([], t1)
    (fr ++ ex, t2)
  match s with
  | '-' :: t =>
    match core t with
    | some (ip, r) =>
      let (fe, r1) := fracExp r
      some (.num (String.mk ('-' :: (ip ++ fe))), r1)
    | none => none
  | t =>
    match core t with
    | some (ip, r) =>
      let (fe, r1) := fracExp r
      some (.num (String.mk (ip ++ fe)), r1)
    | none => none

mutual

/-- Parse one JSON value at the given position (no leading whitespace).
Fuel only bounds recursion depth; `input length + 1` always suffices
because every recursive call consumes at least one character. -/
def parseValue : Nat → List Char → Option (PyJson × List Char)
  | 0, _ => none
  | fuel + 1, s =>
    match s with
    | '"' :: r => (parseStringBody fuel r).map fun p => (.str (String.mk p.1), p.2)
    | '\x7b' :: r =>
      match skipWs r with
      | '\x7d' :: r2 => some (.obj [], r2)
      | r1 => parseObjRest fuel r1 []
    | '[' :: r =>
      match skipWs r with
      | ']' :: r2 => some (.arr [], r2)
      | r1 => parseArrRest fuel r1 []
    | _ =>
      if "true".data.isPrefixOf s then some (.boolean true, s.drop 4)
      else if "false".data.isPrefixOf s then some (.boolean false, s.drop 5)
      else if "null".data.isPrefixOf s then some (.null, s.drop 4)
      else if "NaN".data.isPrefixOf s then some (.num "NaN", s.drop 3)
      else if "Infinity".data.isPrefixOf s then some (.num "Infinity", s.drop 8)
      else if "-Infinity".data.isPrefixOf s then some (.num "-Infinity", s.drop 9)
      else parseNumber s

/-- Parse a string body after the opening quote: strict mode, so an
unescaped control character is an error. -/
def parseStringBody : Nat → List Char → Option (List Char × List Char)
  | 0, _ => none
  | fuel + 1, s =>
    match s with
    | '"' :: r => some ([], r)
    | '\\' :: e :: r =>
      if e == 'u' then do
        let (n, r1) ← parseHex4 r
        let (cs, rest) ← parseStringBody fuel r1
        some (Char.ofNat n :: cs, rest)
      else do
        let c ←
          if e == '"' then some '"'
          else if e == '\\' then some '\\'
          else if e == '/' then some '/'
          else if e == 'b' then some '\x08'
          else if e == 'f' then some '\x0C'
          else if e == 'n' then some '\n'
          else if e == 'r' then some '\r'
          else if e == 't' then some '\t'
          else none
        let (cs, rest) ← parseStringBody fuel r
        some (c :: cs, rest)
    | c :: r =>
      if c.toNat < 32 then none
      else (parseStringBody fuel r).map fun p => (c :: p.1, p.2)
    | [] => none

/-- Parse the elements of a non-empty array, positioned at an element. -/
def parseArrRest : Nat → List Char → List PyJson → Option (PyJson × List Char)
  | 0, _, _ => none
  | fuel + 1, s, acc => do
    let (v, r) ← parseValue fuel (skipWs s)
    match skipWs r with
    | ',' :: r2 => parseArrRest fuel r2 (acc ++ [v])
    | ']' :: r2 => some (.arr (acc ++ [v]), r2)
    | _ => none

/-- Parse the members of a non-empty object, positioned at a key. -/
def parseObjRest : Nat → List Char → List (String × PyJson) →
    Option (PyJson × List Char)
  | 0, _, _ => none
  | fuel + 1, s, acc =>
    match s with
    | '"' :: r => do
      let (kcs, r1) ← parseStringBody fuel r
      match skipWs r1 with
      | ':' :: r3 => do
        let (v, r4) ← parseValue fuel (skipWs r3)
        match skipWs r4 with
        | ',' :: r6 => parseObjRest fuel (skipWs r6) (acc ++ [(String.mk kcs, v)])
        | '\x7d' :: r6 => some (.obj (acc ++ [(String.mk kcs, v)]), r6)
        | _ => none
      | _ => none
    | _ => none

end

/-- Python `json.loads`: skip surrounding whitespace, parse one complete
document, reject trailing data.  Returns `none` where CPython raises
`json.JSONDecodeError`. -/
def jsonLoads (s : String) : Option PyJson :=
  match parseValue (s.data.length + 1) (skipWs s.data) with
  | some (v, rest) => if (skipWs rest).isEmpty then some v else none
  | none => none

/-- Python `dict.get` on the materialised object: last occurrence of the
key wins, as in a dict built by insertion. -/
def objGet (kvs : List (String × PyJson)) (k : String) : Option PyJson :=
  (kvs.reverse.find? (fun kv => kv.1 == k)).map (fun kv => kv.2)

mutual

/-- Python `repr` of a parsed JSON value (duplicate object keys and
string escaping inside `repr` are not modelled; no claim exercises
them). -/
def pyRepr : PyJson → String
  | .null => "None"
  | .boolean true => "True"
  | .boolean false => "False"
  | .num l => l
  | .str s => "'" ++ s ++ "'"
  | .arr xs => "[" ++ String.intercalate ", " (pyReprList xs) ++ "]"
  | .obj kvs => "\x7b" ++ String.intercalate ", " (pyReprFields kvs) ++ "\x7d"

def pyReprList : List PyJson → List String
  | [] => []
  | x :: xs => pyRepr x :: pyReprList xs

def pyReprFields : List (String × PyJson) → List String
  | [] => []
  | (k, v) :: kvs => ("'" ++ k ++ "': " ++ pyRepr v) :: pyReprFields kvs

end

/-- Python `str` of a parsed JSON value. -/
def pyStr : PyJson → String
  | .str s => s
  | v => pyRepr v

/-! The pipeline (source lines 159-326). -/

/-- Source line 164: the Python-traceback frame pattern
`File "([^"]+)", line (\d+), in (\w+)`. -/
def pyFramePat : Regex := rcat
  [rstr "File \"", .grp 1 (plus1 true .notQuote), rstr "\", line ",
   .grp 2 (plus1 true .digit), rstr ", in ", .grp 3 (plus1 true .word)]

/-- Source line 173: the JavaScript stack-frame pattern
`at (\w+).*?\((.+?):(\d+):\d+\)`. -/
def jsFramePat : Regex := rcat
  [rstr "at ", .grp 1 (plus1 true .word), .star false .dot, rstr "(",
   .grp 2 (plus1 false .dot), rstr ":", .grp 3 (plus1 true .digit), rstr ":",
   plus1 true .digit, rstr ")"]

/-- Source line 194: the detector's group-free JavaScript pattern
`at \w+.*?\(.+?:\d+:\d+\)`. -/
def jsDetectPat : Regex := rcat
  [rstr "at ", plus1 true .word, .star false .dot, rstr "(", plus1 false .dot,
   rstr ":", plus1 true .digit, rstr ":", plus1 true .digit, rstr ")"]

/-- Python `needle in haystack` on strings. -/
def containsSub (hay pat : List Char) : Bool :=
  hay.tails.any (fun t => pat.isPrefixOf t)

def TRACEBACK_HEADER : String := "Traceback (most recent call last):"

/-- Source lines 184-197: `detect_log_format`.  `json.loads` failure is
absorbed (`jsonLoads` returns `none` there) and detection falls through
to the next rule. -/
def detect_log_format (log : String) : String :=
  if (jsonLoads log).isSome then "json"
  else if containsSub log.data TRACEBACK_HEADER.data then "python"
  else if (search false jsDetectPat log).isSome then "javascript"
  else "plain"

structure StackFrame where
  file : String
  line : String
  function : String
deriving DecidableEq

structure MatchedError where
  pattern : String
  matchText : String
  explanation : String
deriving DecidableEq

/-- The analysis result dict, fields in creation order (source lines
205-210). -/
structure AnalysisResult where
  format_detected : String
  errors_found : List MatchedError
  suggestions : List String
  stack_frames : List StackFrame
deriving DecidableEq

/-- Python `value + " "`-style concatenation where `value` came out of
the parsed JSON: only a `str` concatenates; anything else raises
`TypeError` (the exact CPython message text is not modelled). -/
def jsonFieldStr : PyJson → Except String String
  | .str s => .ok s
  | _ => .error "TypeError: unsupported operand type(s) for +"

/-- Source lines 202-203: the format hint, with "auto" resolved through
the detector and any other hint taken verbatim. -/
def resolveFormat (log : String) (log_format : String) : String :=
  if log_format == "auto" then detect_log_format log else log_format

/-- Source lines 212-219: when the resolved format is json and the text
parses as a mapping, rebuild the text from its message/error/stack
fields; parse failures and non-mapping values leave the text unchanged. -/
def resolveLogText (fmt : String) (log : String) : Except String String :=
  if fmt == "json" then
    match jsonLoads log with
    | some (.obj kvs) => do
      let msg ← jsonFieldStr ((objGet kvs "message").getD (.str ""))
      let err ← jsonFieldStr ((objGet kvs "error").getD (.str ""))
      .ok (msg ++ " " ++ err ++ " " ++ pyStr ((objGet kvs "stack").getD (.str "")))
    | _ => .ok log
  else .ok log

/-- Source lines 221-229: the signature-matching loop.  One
case-insensitive `re.search` per signature, in registry order; each
match appends one record carrying the pattern text, the matched
substring and the produced explanation. -/
def matchSignatures : List ErrorSig → String → Except String (List MatchedError)
  | [], _ => .ok []
  | sg :: rest, text =>
    match search true sg.regex text with
    | some (m, c) => do
      let expl ← sg.explain (toPyMatch sg.regex m c)
      let tail ← matchSignatures rest text
      .ok (⟨sg.pattern, String.mk m, expl⟩ :: tail)
    | none => matchSignatures rest text

/-- Source lines 166-170: build one frame record from a Python-dialect
match.  Groups 1-3 are always bound on a successful match (proved
below), so `interp`'s default is unreachable. -/
def frameOfPy (m : List Char) (c : Caps) : Except String StackFrame := do
  let pm := toPyMatch pyFramePat m c
  let g1 ← pyGroup pm 1
  let g2 ← pyGroup pm 2
  let g3 ← pyGroup pm 3
  .ok ⟨interp g1, interp g2, interp g3⟩

/-- Source lines 175-179: build one frame record from a JavaScript
match: file is group 2, line group 3, function group 1. -/
def frameOfJs (m : List Char) (c : Caps) : Except String StackFrame := do
  let pm := toPyMatch jsFramePat m c
  let g1 ← pyGroup pm 1
  let g2 ← pyGroup pm 2
  let g3 ← pyGroup pm 3
  .ok ⟨interp g2, interp g3, interp g1⟩

/-- Effectful map, mirroring a Python for-loop that appends one built
record per match. -/
def mapExcept {α β : Type} (f : α → Except String β) : List α → Except String (List β)
  | [] => .ok []
  | a :: t => do
    let b ← f a
    let bs ← mapExcept f t
    .ok (b :: bs)

/-- Source lines 159-181: `extract_stack_frames`, all Python-dialect
frames (in order of appearance) then all JavaScript-dialect frames (in
order of appearance). -/
def extract_stack_frames (log : String) : Except String (List StackFrame) := do
  let pys ← mapExcept (fun q => frameOfPy q.2.1 q.2.2) (finditer false pyFramePat log)
  let jss ← mapExcept (fun q => frameOfJs q.2.1 q.2.2) (finditer false jsFramePat log)
  .ok (pys ++ jss)

def NO_PATTERNS_MSG : String :=
  "No known error patterns matched. Review the full log for context."

def GENERIC_SUGGESTIONS : List String :=
  ["Add logging around the error location for more context",
   "Check if this error is reproducible consistently",
   "Review recent code changes that might have caused this"]

/-- Source lines 240-242: the location-summary suggestion built from the
first stack frame. -/
def locationMsg (f : StackFrame) : String :=
  "Error originated in " ++ f.file ++ ":" ++ f.line ++ " in function " ++ f.function

/-- Source lines 200-251: `analyze_error`.  Note that the frame
extraction on line 232 runs on the same (possibly rewritten) `log`
variable that signature matching used. -/
def analyze_error (log : String) (log_format : String) :
    Except String AnalysisResult := do
  let fmt := resolveFormat log log_format
  let log2 ← resolveLogText fmt log
  let errors ← matchSignatures ERROR_PATTERNS log2
  let frames ← extract_stack_frames log2
  let suggestions :=
    (if errors.isEmpty then [NO_PATTERNS_MSG] else []) ++
    (match frames with
     | [] => []
     | f :: _ => [locationMsg f]) ++
    GENERIC_SUGGESTIONS
  .ok ⟨fmt, errors, suggestions, frames⟩

def errorSection (p : Nat × MatchedError) : List String :=
  ["### Error " ++ toString (p.1 + 1),
   "**Match:** `" ++ p.2.matchText ++ "`",
   "**Explanation:** " ++ p.2.explanation,
   ""]

def frameLine (f : StackFrame) : String :=
  "- `" ++ f.file ++ ":" ++ f.line ++ "` in `" ++ f.function ++ "`"

/-- Source lines 254-285: `format_analysis`.  Sections with no content
are omitted; at most the first 10 frames are listed. -/
def format_analysis (analysis : AnalysisResult) : String :=
  let l1 := ["# Error Analysis Report", "",
             "**Log Format:** " ++ analysis.format_detected, ""]
  let l2 :=
    if analysis.errors_found.isEmpty then [] else
      ["## Errors Identified", ""] ++ analysis.errors_found.enum.flatMap errorSection
  let l3 :=
    if analysis.stack_frames.isEmpty then [] else
      ["## Stack Trace", ""] ++ (analysis.stack_frames.take 10).map frameLine ++ [""]
  let l4 :=
    if analysis.suggestions.isEmpty then [] else
      ["## Suggestions", ""] ++ analysis.suggestions.map (fun s => "- " ++ s)
  String.intercalate "\n" (l1 ++ l2 ++ l3 ++ l4)

structure CommandResult where
  success : Bool
  output : String
  error : Option String
deriving DecidableEq

/-- Source lines 288-326: `execute`.  The I/O boundary is made explicit:
`is_file` models `os.path.isfile(log_input)` and `read_result` the
outcome of reading that file (consulted only when `is_file`); everything
else is the source's control flow.  The function is total: no failure
escapes it. -/
def execute (log_arg : String) (format_arg : String) (is_file : Bool)
    (read_result : Except String String) : CommandResult :=
  if log_arg == "" then
    ⟨false, "", some "No log input provided. Use log='...' to provide error text."⟩
  else
    match (if is_file then read_result else .ok log_arg) with
    | .error e => ⟨false, "", some ("Failed to read log file: " ++ e)⟩
    | .ok text =>
      match analyze_error text format_arg with
      | .ok analysis => ⟨true, format_analysis analysis, none⟩
      | .error e => ⟨false, "", some ("Analysis failed: " ++ e)⟩

/-- Group indices that every successful match of `r` necessarily binds. -/
def binds : Regex → Nat → Bool
  | .eps, _ => false
  | .cls _, _ => false
  | .star _ _, _ => false
  | .seq a b, i => binds a i || binds b i
  | .alt a b, i => binds a i && binds b i
  | .grp j r, i => (j == i) || binds r i

/-- The bodies of group `i` inside `r`. -/
def groupBodies : Regex → Nat → List Regex
  | .eps, _ => []
  | .cls _, _ => []
  | .star _ _, _ => []
  | .seq a b, i => groupBodies a i ++ groupBodies b i
  | .alt a b, i => groupBodies a i ++ groupBodies b i
  | .grp j r, i => (if j = i then [r] else []) ++ groupBodies r i

/-- The compiled body of the HTTPError pattern's capturing group. -/
def digit3 : Regex := rcat [.cls .digit, .cls .digit, .cls .digit]

/-- The Python-dialect frames of a text, in scan order. -/
def pyFrameList (log : String) : List StackFrame :=
  (finditer false pyFramePat log).map fun q =>
    ⟨interp ((q.2.2 1).map String.mk), interp ((q.2.2 2).map String.mk),
     interp ((q.2.2 3).map String.mk)⟩

/-- The JavaScript-dialect frames of a text, in scan order (file is
group 2, line group 3, function group 1). -/
def jsFrameList (log : String) : List StackFrame :=
  (finditer false jsFramePat log).map fun q =>
    ⟨interp ((q.2.2 2).map String.mk), interp ((q.2.2 3).map String.mk),
     interp ((q.2.2 1).map String.mk)⟩

/-- The looked-up field is absent or is a string: the only way the
json rewrite's string concatenation can succeed. -/
def strOrMissing (kvs : List (String × PyJson)) (k : String) : Bool :=
  match objGet kvs k with
  | none => true
  | some (.str _) => true
  | some _ => false

/-- No `TypeError` in the json rewrite: either the resolved format is
not json, or the text is not a json mapping, or its message and error
fields are absent-or-string. -/
def jsonOkFields (log fmt : String) : Bool :=
  if resolveFormat log fmt == "json" then
    match jsonLoads log with
    | some (.obj kvs) => strOrMissing kvs "message" && strOrMissing kvs "error"
    | _ => true
  else true

/-- One detection rule of the spec's ordered chain: `some tag` when the
rule applies. -/
def detectRule1 (t : String) : Option String :=
  if (jsonLoads t).isSome then some "json" else none

def detectRule2 (t : String) : Option String :=
  if containsSub t.data TRACEBACK_HEADER.data then some "python" else none

def detectRule3 (t : String) : Option String :=
  if (search false jsDetectPat t).isSome then some "javascript" else none

/-- First rule that applies, in order. -/
def firstRule : List (String → Option String) → String → Option String
  | [], _ => none
  | f :: fs, t => (f t).orElse fun _ => firstRule fs t

/-- The spec's wording of the detector (section 4.1): an ordered chain of
rules, first success wins, default `plain`. -/
def detectSpec (t : String) : String :=
  (firstRule [detectRule1, detectRule2, detectRule3] t).getD "plain"

/-- The suggestion list as `analyze_error` builds it. -/
def suggestionsOf (errors : List MatchedError) (frames : List StackFrame) :
    List String :=
  (if errors.isEmpty then [NO_PATTERNS_MSG] else []) ++
  (match frames with
   | [] => []
   | f :: _ => [locationMsg f]) ++
  GENERIC_SUGGESTIONS

/-! Soundness of the matcher with respect to a declarative matching
relation, and the capture lemmas derived from it: a group in a mandatory
position is bound on every successful match, and every capture is a
piece of text matched by that group's body. -/

/-- Declarative matching: `Mrel ci r s s' c c'` says `r` matches the
prefix of `s` ending where `s'` begins, turning captures `c` into `c'`. -/
inductive Mrel (ci : Bool) : Regex → List Char → List Char → Caps → Caps → Prop where
  | eps {s : List Char} {c : Caps} : Mrel ci .eps s s c c
  | cls {k : CharCls} {a : Char} {s : List Char} {c : Caps}
      (h : charMatches ci k a = true) : Mrel ci (.cls k) (a :: s) s c c
  | seq {r1 r2 : Regex} {s s1 s2 : List Char} {c c1 c2 : Caps}
      (h1 : Mrel ci r1 s s1 c c1) (h2 : Mrel ci r2 s1 s2 c1 c2) :
      Mrel ci (.seq r1 r2) s s2 c c2
  | altL {r1 r2 : Regex} {s s' : List Char} {c c' : Caps}
      (h : Mrel ci r1 s s' c c') : Mrel ci (.alt r1 r2) s s' c c'
  | altR {r1 r2 : Regex} {s s' : List Char} {c c' : Caps}
      (h : Mrel ci r2 s s' c c') : Mrel ci (.alt r1 r2) s s' c c'
  | star {g : Bool} {k : CharCls} {s : List Char} {c : Caps} {n : Nat}
      (h : (s.take n).all (charMatches ci k) = true) :
      Mrel ci (.star g k) s (s.drop n) c c
  | grp {i : Nat} {r : Regex} {s s' : List Char} {c c' : Caps}
      (h : Mrel ci r s s' c c') :
      Mrel ci (.grp i r) s s' c (c'.set i (s.take (s.length - s'.length)))

theorem orElse_eq_some {α : Type} {a : Option α} {f : Unit → Option α} {v : α}
    (h : a.orElse f = some v) : a = some v ∨ f () = some v := by
  cases a with
  | none => right; simpa [Option.orElse] using h
  | some x => left; simpa [Option.orElse] using h

theorem tryStar_eq_some {α : Type} {s : List Char} {c : Caps}
    {k : List Char → Caps → Option α} {v : α} :
    ∀ {l : List Nat}, tryStar s c k l = some v → ∃ n ∈ l, k (s.drop n) c = some v := by
  intro l
  induction l with
  | nil => intro h; simp [tryStar] at h
  | cons n ns ih =>
    intro h
    rcases orElse_eq_some h with h1 | h1
    · exact ⟨n, by simp, h1⟩
    · obtain ⟨m, hm, hk⟩ := ih h1
      exact ⟨m, by simp [hm], hk⟩

theorem take_all_of_le_takeWhile {p : Char → Bool} :
    ∀ (s : List Char) (n : Nat), n ≤ (s.takeWhile p).length →
      (s.take n).all p = true := by
  intro s
  induction s with
  | nil => intro n _; simp
  | cons a t ih =>
    intro n hn
    cases n with
    | zero => simp
    | succ m =>
      by_cases hp : p a
      · simp only [List.takeWhile_cons, hp, if_true, List.length_cons] at hn
        simp [hp, ih m (Nat.le_of_succ_le_succ hn)]
      · simp [List.takeWhile_cons, hp] at hn

/-- Soundness of the matcher: every success factors through the
declarative relation and the continuation. -/
theorem mtch_sound {α : Type} (ci : Bool) :
    ∀ (r : Regex) (s : List Char) (c : Caps) (k : List Char → Caps → Option α)
      (v : α), mtch ci r s c k = some v →
      ∃ s' c', Mrel ci r s s' c c' ∧ k s' c' = some v := by
  intro r
  induction r with
  | eps =>
    intro s c k v h
    exact ⟨s, c, .eps, h⟩
  | cls kc =>
    intro s c k v h
    cases s with
    | nil => simp [mtch] at h
    | cons a t =>
      by_cases hc : charMatches ci kc a
      · refine ⟨t, c, .cls hc, ?_⟩
        simpa [mtch, hc] using h
      · simp [mtch, hc] at h
  | seq r1 r2 ih1 ih2 =>
    intro s c k v h
    obtain ⟨s1, c1, m1, h1⟩ := ih1 s c _ v h
    obtain ⟨s2, c2, m2, h2⟩ := ih2 s1 c1 k v h1
    exact ⟨s2, c2, .seq m1 m2, h2⟩
  | alt r1 r2 ih1 ih2 =>
    intro s c k v h
    rcases orElse_eq_some h with h1 | h1
    · obtain ⟨s', c', m, hk⟩ := ih1 s c k v h1
      exact ⟨s', c', .altL m, hk⟩
    · obtain ⟨s', c', m, hk⟩ := ih2 s c k v h1
      exact ⟨s', c', .altR m, hk⟩
  | star g kc =>
    intro s c k v h
    obtain ⟨n, hn, hk⟩ := tryStar_eq_some h
    have hle : n ≤ (s.takeWhile (charMatches ci kc)).length := by
      rcases g with _ | _ <;>
        simpa [List.mem_reverse, List.mem_range, Nat.lt_succ_iff] using hn
    exact ⟨s.drop n, c, .star (take_all_of_le_takeWhile s n hle), hk⟩
  | grp i r ih =>
    intro s c k v h
    obtain ⟨s', c', m, hk⟩ := ih s c _ v h
    exact ⟨s', c'.set i (s.take (s.length - s'.length)), .grp m, hk⟩

/-- A capture that is present stays present through further matching
(groups are only ever overwritten with fresh text, never cleared). -/
theorem Mrel.capsIsSome {ci : Bool} {r : Regex} {s s' : List Char} {c c' : Caps}
    (h : Mrel ci r s s' c c') (i : Nat) (hs : (c i).isSome) : (c' i).isSome := by
  induction h with
  | eps => exact hs
  | cls _ => exact hs
  | seq _ _ ih1 ih2 => exact ih2 (ih1 hs)
  | altL _ ih => exact ih hs
  | altR _ ih => exact ih hs
  | star _ => exact hs
  | grp _ ih =>
    unfold Caps.set
    split
    · simp
    · exact ih hs

theorem Mrel.bindsSome {ci : Bool} {r : Regex} {s s' : List Char} {c c' : Caps}
    (h : Mrel ci r s s' c c') (i : Nat) (hb : binds r i = true) :
    (c' i).isSome := by
  induction h with
  | eps => simp [binds] at hb
  | cls _ => simp [binds] at hb
  | star _ => simp [binds] at hb
  | seq h1 h2 ih1 ih2 =>
    simp only [binds, Bool.or_eq_true] at hb
    rcases hb with hb | hb
    · exact Mrel.capsIsSome h2 i (ih1 hb)
    · exact ih2 hb
  | altL _ ih =>
    simp only [binds, Bool.and_eq_true] at hb
    exact ih hb.1
  | altR _ ih =>
    simp only [binds, Bool.and_eq_true] at hb
    exact ih hb.2
  | grp h ih =>
    simp only [binds, Bool.or_eq_true, beq_iff_eq] at hb
    unfold Caps.set
    split
    · simp
    · rcases hb with hb | hb
      · omega
      · exact ih hb

/-- Every capture comes either from the incoming capture map or from a
match of one of that group's bodies, as the consumed prefix. -/
theorem Mrel.capSource {ci : Bool} {r : Regex} {s s' : List Char} {c c' : Caps}
    (h : Mrel ci r s s' c c') (i : Nat) (t : List Char) (ht : c' i = some t) :
    c i = some t ∨ ∃ b ∈ groupBodies r i, ∃ u u' d d', Mrel ci b u u' d d' ∧
      t = u.take (u.length - u'.length) := by
  induction h with
  | eps => exact .inl ht
  | cls _ => exact .inl ht
  | star _ => exact .inl ht
  | seq h1 h2 ih1 ih2 =>
    rcases ih2 ht with h3 | ⟨b, hb, w⟩
    · rcases ih1 h3 with h4 | ⟨b, hb, w⟩
      · exact .inl h4
      · exact .inr ⟨b, by simp [groupBodies, hb], w⟩
    · exact .inr ⟨b, by simp [groupBodies, hb], w⟩
  | altL _ ih =>
    rcases ih ht with h3 | ⟨b, hb, w⟩
    · exact .inl h3
    · exact .inr ⟨b, by simp [groupBodies, hb], w⟩
  | altR _ ih =>
    rcases ih ht with h3 | ⟨b, hb, w⟩
    · exact .inl h3
    · exact .inr ⟨b, by simp [groupBodies, hb], w⟩
  | grp hm ih =>
    rename_i j r0 u u' d d'
    unfold Caps.set at ht
    split at ht
    · rename_i hij
      refine .inr ⟨r0, by simp [groupBodies, hij], u, u', d, d', hm, ?_⟩
      injection ht with ht
      exact ht.symm
    · rcases ih ht with h3 | ⟨b, hb, w⟩
      · exact .inl h3
      · exact .inr ⟨b, by simp [groupBodies, hb], w⟩

/-- Soundness of `matchHere`: a successful anchored match yields a
derivation from the empty capture map, and the matched text is the
consumed prefix. -/
theorem matchHere_sound {ci : Bool} {r : Regex} {s m : List Char} {c : Caps}
    (h : matchHere ci r s = some (m, c)) :
    ∃ s', Mrel ci r s s' Caps.empty c ∧ m = s.take (s.length - s'.length) := by
  obtain ⟨s', c', hm, hk⟩ := mtch_sound ci r s Caps.empty _ _ h
  have h1 : s.take (s.length - s'.length) = m ∧ c' = c := by
    have := hk
    simp only [Option.some.injEq, Prod.mk.injEq] at this
    exact this
  exact ⟨s', h1.2 ▸ hm, h1.1.symm⟩

/-- Soundness of `searchAux`: a successful search is an anchored match
at some start suffix. -/
theorem searchAux_sound {ci : Bool} {r : Regex} :
    ∀ {s m : List Char} {c : Caps}, searchAux ci r s = some (m, c) →
      ∃ u s', Mrel ci r u s' Caps.empty c ∧ m = u.take (u.length - s'.length) := by
  intro s
  induction s with
  | nil =>
    intro m c h
    obtain ⟨s', hm, hmx⟩ := matchHere_sound h
    exact ⟨[], s', hm, hmx⟩
  | cons a t ih =>
    intro m c h
    rcases orElse_eq_some h with h1 | h1
    · obtain ⟨s', hm, hmx⟩ := matchHere_sound h1
      exact ⟨a :: t, s', hm, hmx⟩
    · exact ih h1

theorem search_sound {ci : Bool} {r : Regex} {s : String} {m : List Char}
    {c : Caps} (h : search ci r s = some (m, c)) :
    ∃ u s', Mrel ci r u s' Caps.empty c ∧ m = u.take (u.length - s'.length) :=
  searchAux_sound h

/-! Capture facts for the signatures whose producers consume a group
with something other than plain f-string interpolation: the HTTPError
code must be three digits, and the Cannot-find-module path must be
bound. -/

theorem Mrel.eps_inv {ci : Bool} {u u' : List Char} {d e : Caps}
    (h : Mrel ci .eps u u' d e) : u' = u ∧ e = d := by
  cases h
  exact ⟨rfl, rfl⟩

theorem Mrel.cls_inv {ci : Bool} {k : CharCls} {u u' : List Char} {d e : Caps}
    (h : Mrel ci (.cls k) u u' d e) :
    ∃ a, u = a :: u' ∧ charMatches ci k a = true ∧ e = d := by
  cases h with
  | cls ha => exact ⟨_, rfl, ha, rfl⟩

theorem Mrel.seq_inv {ci : Bool} {r1 r2 : Regex} {u u' : List Char} {d e : Caps}
    (h : Mrel ci (.seq r1 r2) u u' d e) :
    ∃ mid dm, Mrel ci r1 u mid d dm ∧ Mrel ci r2 mid u' dm e := by
  cases h with
  | seq h1 h2 => exact ⟨_, _, h1, h2⟩

/-- A match of the three-digit group body consumes exactly three digit
characters. -/
theorem digit3_match {ci : Bool} {u u' : List Char} {d e : Caps}
    (h : Mrel ci digit3 u u' d e) :
    ∃ a b g, u = a :: b :: g :: u' ∧ a.isDigit ∧ b.isDigit ∧ g.isDigit := by
  obtain ⟨m1, d1, ha, h2⟩ := h.seq_inv
  obtain ⟨a, hu1, hca, _⟩ := ha.cls_inv
  obtain ⟨m2, d2, hb, h3⟩ := h2.seq_inv
  obtain ⟨b, hu2, hcb, _⟩ := hb.cls_inv
  obtain ⟨m3, d3, hg, h4⟩ := h3.seq_inv
  obtain ⟨g, hu3, hcg, _⟩ := hg.cls_inv
  obtain ⟨hu4, _⟩ := h4.eps_inv
  subst hu4 hu3 hu2 hu1
  exact ⟨a, b, g, rfl,
    by simpa [charMatches] using hca,
    by simpa [charMatches] using hcb,
    by simpa [charMatches] using hcg⟩

/-- On any successful match of the HTTPError signature, group 1 holds
exactly three digit characters. -/
theorem reHttpError_cap {ci : Bool} {s s' : List Char} {c : Caps}
    (h : Mrel ci reHttpError s s' Caps.empty c) :
    ∃ t, c 1 = some t ∧ t.length = 3 ∧ t.all Char.isDigit = true := by
  have hsome : (c 1).isSome := h.bindsSome 1 (by decide)
  obtain ⟨t, ht⟩ := Option.isSome_iff_exists.mp hsome
  rcases h.capSource 1 t ht with h2 | ⟨b, hb, u, u', d, e, hm, hteq⟩
  · simp [Caps.empty] at h2
  · have hbodies : groupBodies reHttpError 1 = [digit3] := by decide
    rw [hbodies, List.mem_singleton] at hb
    subst hb
    obtain ⟨a, b2, g, hu, ha, hb2, hg⟩ := digit3_match hm
    subst hu
    have hlen : (a :: b2 :: g :: u').length - u'.length = 3 := by
      simp only [List.length_cons]
      omega
    rw [hlen] at hteq
    subst hteq
    exact ⟨[a, b2, g], ht, rfl, by simp [ha, hb2, hg]⟩

theorem isDigit_not_pyWs {a : Char} (h : a.isDigit = true) : isPyWs a = false := by
  revert h
  unfold Char.isDigit isPyWs
  intro h
  have h1 : ('0' ≤ a && a ≤ '9') = true := h
  simp only [Bool.and_eq_true, decide_eq_true_eq] at h1
  have hlo : ('0' : Char).val ≤ a.val := h1.1
  have hhi : a.val ≤ ('9' : Char).val := h1.2
  have hs : a ≠ ' ' := by
    intro hx
    subst hx
    exact absurd hlo (by decide)
  have htb : a ≠ '\t' := by
    intro hx
    subst hx
    exact absurd hlo (by decide)
  have hnl : a ≠ '\n' := by
    intro hx
    subst hx
    exact absurd hlo (by decide)
  have hcr : a ≠ '\r' := by
    intro hx
    subst hx
    exact absurd hlo (by decide)
  simp [hs, htb, hnl, hcr]

theorem dropWhile_pyWs_of_digits {l : List Char} (h : l.all Char.isDigit = true) :
    l.dropWhile isPyWs = l := by
  cases l with
  | nil => rfl
  | cons a t =>
    simp only [List.all_cons, Bool.and_eq_true] at h
    simp [List.dropWhile_cons, isDigit_not_pyWs h.1]

theorem stripEnds_of_digits {l : List Char} (h : l.all Char.isDigit = true) :
    stripEnds l = l := by
  unfold stripEnds
  rw [dropWhile_pyWs_of_digits h]
  rw [dropWhile_pyWs_of_digits (by simpa using h)]
  exact l.reverse_reverse

theorem isDigit_ne_plus {a : Char} (h : a.isDigit = true) : (a == '+') = false := by
  rcases hb : a == '+' with _ | _
  · rfl
  · have : a = '+' := by simpa using hb
    subst this
    simp [Char.isDigit] at h

theorem isDigit_ne_minus {a : Char} (h : a.isDigit = true) : (a == '-') = false := by
  rcases hb : a == '-' with _ | _
  · rfl
  · have : a = '-' := by simpa using hb
    subst this
    simp [Char.isDigit] at h

/-- Python `int` succeeds on a non-empty all-digit string. -/
theorem pyInt_digits {t : List Char} (hne : t ≠ []) (hd : t.all Char.isDigit = true) :
    pyInt (String.mk t) = .ok (digitsVal t : Nat) := by
  unfold pyInt
  have hs : stripEnds (String.mk t).data = t := stripEnds_of_digits hd
  rw [hs]
  cases t with
  | nil => exact absurd rfl hne
  | cons a u =>
    simp only [List.all_cons, Bool.and_eq_true] at hd
    simp [isDigit_ne_plus hd.1, isDigit_ne_minus hd.1, intDigits,
      List.all_cons, hd.1, hd.2]

/-! Totality of the analysis phase: no explanation producer ever raises,
so the only failure source in `analyze_error` is the json-rewrite step. -/

theorem pyGroup_ok_le {pm : PyMatch} {i : Nat} (h0 : i ≠ 0)
    (h : i ≤ pm.ngroups) : pyGroup pm i = .ok (pm.caps i) := by
  unfold pyGroup
  rw [if_neg h0, if_pos h]

theorem except_bind_ok {α β : Type} (x : α) (f : α → Except String β) :
    (Except.ok x >>= f : Except String β) = f x := rfl

theorem explCannotFindModule_some {pm : PyMatch} {v : String}
    (h1 : pm.ngroups = 1) (h2 : pm.caps 1 = some v) :
    explCannotFindModule pm = .ok ("Node module '" ++ v ++
      "' not found. Try: npm install " ++
      String.mk (v.data.takeWhile (fun c => c != '/'))) := by
  unfold explCannotFindModule
  rw [pyGroup_ok_le (by decide) (by omega), except_bind_ok, h2]

theorem explHttpError_eq {pm : PyMatch} {t : List Char} (h1 : pm.ngroups = 1)
    (h2 : pm.caps 1 = some (String.mk t)) (hne : t ≠ [])
    (hd : t.all Char.isDigit = true) :
    explHttpError pm = .ok (get_http_error_explanation (digitsVal t : Nat)) := by
  unfold explHttpError
  rw [pyGroup_ok_le (by decide) (by omega), except_bind_ok, h2]
  show pyIntOfGroup (some (String.mk t)) >>= _ = _
  rw [show pyIntOfGroup (some (String.mk t)) = pyInt (String.mk t) from rfl,
     pyInt_digits hne hd, except_bind_ok]

/-- Every registered signature's producer succeeds on every successful
match of its own pattern. -/
theorem sig_explain_ok {sg : ErrorSig} (hsg : sg ∈ ERROR_PATTERNS) {t : String}
    {m : List Char} {c : Caps} (hs : search true sg.regex t = some (m, c)) :
    ∃ e, sg.explain (toPyMatch sg.regex m c) = .ok e := by
  fin_cases hsg
  case _ => exact ⟨_, rfl⟩
  case _ => exact ⟨_, rfl⟩
  case _ => exact ⟨_, rfl⟩
  case _ => exact ⟨_, rfl⟩
  case _ => exact ⟨_, rfl⟩
  case _ => exact ⟨_, rfl⟩
  case _ => exact ⟨_, rfl⟩
  case _ => exact ⟨_, rfl⟩
  case _ => exact ⟨_, rfl⟩
  case _ => exact ⟨_, rfl⟩
  case _ => exact ⟨_, rfl⟩
  case _ => exact ⟨_, rfl⟩
  case _ =>
    obtain ⟨u, sfx, hm, _⟩ := search_sound hs
    have hb : (c 1).isSome := hm.bindsSome 1 (by decide)
    obtain ⟨v, hv⟩ := Option.isSome_iff_exists.mp hb
    have h2 : (toPyMatch reCannotFindModule m c).caps 1 = some (String.mk v) := by
      simp [toPyMatch, hv]
    have h1 : (toPyMatch reCannotFindModule m c).ngroups = 1 := rfl
    exact ⟨_, explCannotFindModule_some h1 h2⟩
  case _ => exact ⟨_, rfl⟩
  case _ => exact ⟨_, rfl⟩
  case _ => exact ⟨_, rfl⟩
  case _ => exact ⟨_, rfl⟩
  case _ => exact ⟨_, rfl⟩
  case _ =>
    obtain ⟨u, sfx, hm, _⟩ := search_sound hs
    obtain ⟨t3, hc1, hlen, hdig⟩ := reHttpError_cap hm
    have hne : t3 ≠ [] := by
      intro hx
      subst hx
      simp at hlen
    have h2 : (toPyMatch reHttpError m c).caps 1 = some (String.mk t3) := by
      simp [toPyMatch, hc1]
    have h1 : (toPyMatch reHttpError m c).ngroups = 1 := rfl
    exact ⟨_, explHttpError_eq h1 h2 hne hdig⟩

/-- The matching loop never fails on the registry. -/
theorem matchSignatures_ok (t : String) :
    ∀ sigs : List ErrorSig, (∀ sg ∈ sigs, sg ∈ ERROR_PATTERNS) →
      ∃ l, matchSignatures sigs t = .ok l := by
  intro sigs
  induction sigs with
  | nil => intro _; exact ⟨[], rfl⟩
  | cons sg rest ih =>
    intro hall
    obtain ⟨l, hl⟩ := ih (fun x hx => hall x (List.mem_cons_of_mem _ hx))
    cases hsr : search true sg.regex t with
    | none => exact ⟨l, by simp [matchSignatures, hsr, hl]⟩
    | some p =>
      obtain ⟨m, c⟩ := p
      obtain ⟨e, he⟩ := sig_explain_ok (hall sg (List.mem_cons_self _ _)) hsr
      exact ⟨⟨sg.pattern, String.mk m, e⟩ :: l,
        by simp [matchSignatures, hsr, he, hl, except_bind_ok]⟩

/-! Frame extraction is total, and equals a plain map over the two
`finditer` scans. -/

theorem frameOfPy_eq (m : List Char) (c : Caps) :
    frameOfPy m c = .ok ⟨interp ((c 1).map String.mk),
      interp ((c 2).map String.mk), interp ((c 3).map String.mk)⟩ := rfl

theorem frameOfJs_eq (m : List Char) (c : Caps) :
    frameOfJs m c = .ok ⟨interp ((c 2).map String.mk),
      interp ((c 3).map String.mk), interp ((c 1).map String.mk)⟩ := rfl

theorem mapExcept_of_ok_fun {α β : Type} (f : α → Except String β) (g : α → β)
    (hf : ∀ x, f x = .ok (g x)) :
    ∀ l : List α, mapExcept f l = .ok (l.map g) := by
  intro l
  induction l with
  | nil => rfl
  | cons a t ih => simp [mapExcept, hf, ih, except_bind_ok]

/-- `extract_stack_frames` never fails: all Python-dialect frames, then
all JavaScript-dialect frames. -/
theorem extract_stack_frames_eq (log : String) :
    extract_stack_frames log = .ok (pyFrameList log ++ jsFrameList log) := by
  unfold extract_stack_frames pyFrameList jsFrameList
  have h1 := mapExcept_of_ok_fun (fun q => frameOfPy q.2.1 q.2.2)
    (fun q => ⟨interp ((q.2.2 1).map String.mk), interp ((q.2.2 2).map String.mk),
      interp ((q.2.2 3).map String.mk)⟩)
    (fun q => frameOfPy_eq q.2.1 q.2.2) (finditer false pyFramePat log)
  have h2 := mapExcept_of_ok_fun (fun q => frameOfJs q.2.1 q.2.2)
    (fun q => ⟨interp ((q.2.2 2).map String.mk), interp ((q.2.2 3).map String.mk),
      interp ((q.2.2 1).map String.mk)⟩)
    (fun q => frameOfJs_eq q.2.1 q.2.2) (finditer false jsFramePat log)
  rw [h1, except_bind_ok, h2, except_bind_ok]

/-! `finditer` emits matches at strictly increasing positions: frames
within one dialect keep their order of appearance in the text. -/

theorem finditerAux_zero (ci : Bool) (r : Regex) (s : List Char) (pos : Nat) :
    finditerAux ci r 0 s pos = [] := rfl

theorem finditerAux_succ (ci : Bool) (r : Regex) (n : Nat) (s : List Char)
    (pos : Nat) :
    finditerAux ci r (n + 1) s pos =
      match matchHere ci r s with
      | some (m, c) =>
        if s.isEmpty then [(pos, m, c)]
        else (pos, m, c) ::
          finditerAux ci r n (s.drop (max m.length 1)) (pos + max m.length 1)
      | none =>
        match s with
        | [] => []
        | _ :: t => finditerAux ci r n t (pos + 1) := rfl

theorem finditerAux_pos_le {ci : Bool} {r : Regex} :
    ∀ (fuel : Nat) (s : List Char) (pos : Nat),
      ∀ q ∈ finditerAux ci r fuel s pos, pos ≤ q.1 := by
  intro fuel
  induction fuel with
  | zero => intro s pos q hq; rw [finditerAux_zero] at hq; simp at hq
  | succ n ih =>
    intro s pos q hq
    rw [finditerAux_succ] at hq
    cases hmh : matchHere ci r s with
    | some p =>
      obtain ⟨m, c⟩ := p
      rw [hmh] at hq
      have hq2 : q ∈ (if s.isEmpty then [(pos, m, c)] else (pos, m, c) ::
          finditerAux ci r n (s.drop (max m.length 1)) (pos + max m.length 1)) := hq
      by_cases hs : s.isEmpty
      · rw [if_pos hs, List.mem_singleton] at hq2
        subst hq2
        exact Nat.le_refl _
      · rw [if_neg hs, List.mem_cons] at hq2
        rcases hq2 with hq2 | hq2
        · subst hq2
          exact Nat.le_refl _
        · have h1 := ih _ _ _ hq2
          omega
    | none =>
      rw [hmh] at hq
      cases s with
      | nil =>
        have hq2 : q ∈ ([] : List (Nat × List Char × Caps)) := hq
        simp at hq2
      | cons a t =>
        have hq2 : q ∈ finditerAux ci r n t (pos + 1) := hq
        have h1 := ih t (pos + 1) q hq2
        omega

theorem finditerAux_pos_sorted {ci : Bool} {r : Regex} :
    ∀ (fuel : Nat) (s : List Char) (pos : Nat),
      ((finditerAux ci r fuel s pos).map (fun q => q.1)).Pairwise (· < ·) := by
  intro fuel
  induction fuel with
  | zero => intro s pos; rw [finditerAux_zero]; simp
  | succ n ih =>
    intro s pos
    rw [finditerAux_succ]
    cases hmh : matchHere ci r s with
    | some p =>
      obtain ⟨m, c⟩ := p
      show ((if s.isEmpty then [(pos, m, c)] else (pos, m, c) ::
          finditerAux ci r n (s.drop (max m.length 1))
            (pos + max m.length 1)).map (fun q => q.1)).Pairwise (· < ·)
      by_cases hs : s.isEmpty
      · rw [if_pos hs]
        simp
      · rw [if_neg hs, List.map_cons, List.pairwise_cons]
        constructor
        · intro x hx
          rw [List.mem_map] at hx
          obtain ⟨q, hq, hxe⟩ := hx
          have h1 := finditerAux_pos_le n _ _ q hq
          have hxq : q.1 = x := hxe
          show pos < x
          omega
        · exact ih _ _
    | none =>
      cases s with
      | nil =>
        show (List.map (fun q => q.1)
          ([] : List (Nat × List Char × Caps))).Pairwise (· < ·)
        simp
      | cons a t =>
        show ((finditerAux ci r n t (pos + 1)).map (fun q => q.1)).Pairwise (· < ·)
        exact ih t (pos + 1)

theorem finditer_pos_sorted (ci : Bool) (r : Regex) (s : String) :
    ((finditer ci r s).map (fun q => q.1)).Pairwise (· < ·) :=
  finditerAux_pos_sorted _ _ _

/-! Totality of `analyze_error` away from the one genuine failure path
(a json mapping whose message or error field is not a string). -/

theorem resolveLogText_not_json {fmt log : String} (h : fmt ≠ "json") :
    resolveLogText fmt log = .ok log := by
  simp [resolveLogText, h]

theorem resolveLogText_json_none {log : String} (h : jsonLoads log = none) :
    resolveLogText "json" log = .ok log := by
  simp [resolveLogText, h]

theorem resolveLogText_json_nonobj {log : String} {v : PyJson}
    (h : jsonLoads log = some v) (hv : ∀ kvs, v ≠ .obj kvs) :
    resolveLogText "json" log = .ok log := by
  cases v with
  | obj kvs => exact absurd rfl (hv kvs)
  | null => simp [resolveLogText, h]
  | boolean b => simp [resolveLogText, h]
  | num l => simp [resolveLogText, h]
  | str s => simp [resolveLogText, h]
  | arr xs => simp [resolveLogText, h]

theorem jsonFieldStr_okD {kvs : List (String × PyJson)} {k : String}
    (h : strOrMissing kvs k = true) :
    ∃ s, jsonFieldStr ((objGet kvs k).getD (.str "")) = .ok s := by
  unfold strOrMissing at h
  cases hg : objGet kvs k with
  | none => exact ⟨"", by simp [hg, jsonFieldStr]⟩
  | some v =>
    rw [hg] at h
    cases v with
    | str s => exact ⟨s, by simp [hg, jsonFieldStr]⟩
    | null => simp at h
    | boolean b => simp at h
    | num l => simp at h
    | arr xs => simp at h
    | obj kvs2 => simp at h

theorem resolveLogText_ok_of_fields {log fmt : String}
    (h : jsonOkFields log fmt = true) :
    ∃ t, resolveLogText (resolveFormat log fmt) log = .ok t := by
  by_cases hj : resolveFormat log fmt = "json"
  · rw [hj]
    unfold jsonOkFields at h
    rw [hj] at h
    simp only [beq_self_eq_true, if_true] at h
    cases hL : jsonLoads log with
    | none => exact ⟨log, resolveLogText_json_none hL⟩
    | some v =>
      rw [hL] at h
      cases v with
      | obj kvs =>
        rw [Bool.and_eq_true] at h
        obtain ⟨ms, hm⟩ := jsonFieldStr_okD h.1
        obtain ⟨es, he⟩ := jsonFieldStr_okD h.2
        refine ⟨ms ++ " " ++ es ++ " " ++
          pyStr ((objGet kvs "stack").getD (.str "")), ?_⟩
        unfold resolveLogText
        rw [if_pos (by rfl), hL]
        show (jsonFieldStr ((objGet kvs "message").getD (.str "")) >>= fun msg =>
              jsonFieldStr ((objGet kvs "error").getD (.str "")) >>= fun err =>
              Except.ok (msg ++ " " ++ err ++ " " ++
                pyStr ((objGet kvs "stack").getD (.str "")))) = _
        rw [hm, except_bind_ok, he, except_bind_ok]
      | null => exact ⟨log, resolveLogText_json_nonobj hL (fun kvs hx => by cases hx)⟩
      | boolean b => exact ⟨log, resolveLogText_json_nonobj hL (fun kvs hx => by cases hx)⟩
      | num l => exact ⟨log, resolveLogText_json_nonobj hL (fun kvs hx => by cases hx)⟩
      | str s => exact ⟨log, resolveLogText_json_nonobj hL (fun kvs hx => by cases hx)⟩
      | arr xs => exact ⟨log, resolveLogText_json_nonobj hL (fun kvs hx => by cases hx)⟩
  · exact ⟨log, resolveLogText_not_json hj⟩

/-- Explicit result of `analyze_error` once the rewrite step and the
matching loop are known to have succeeded. -/
theorem analyze_error_eq {log fmt t : String} {l : List MatchedError}
    (ht : resolveLogText (resolveFormat log fmt) log = .ok t)
    (hl : matchSignatures ERROR_PATTERNS t = .ok l) :
    analyze_error log fmt = .ok ⟨resolveFormat log fmt, l,
      suggestionsOf l (pyFrameList t ++ jsFrameList t),
      pyFrameList t ++ jsFrameList t⟩ := by
  simp only [analyze_error]
  rw [ht, except_bind_ok, hl, except_bind_ok, extract_stack_frames_eq,
    except_bind_ok]
  rfl

/-- `analyze_error` succeeds whenever the json rewrite cannot raise. -/
theorem analyze_error_ok {log fmt : String} (h : jsonOkFields log fmt = true) :
    ∃ r, analyze_error log fmt = .ok r := by
  obtain ⟨t, ht⟩ := resolveLogText_ok_of_fields h
  obtain ⟨l, hl⟩ := matchSignatures_ok t ERROR_PATTERNS (fun _ hx => hx)
  exact ⟨_, analyze_error_eq ht hl⟩

/-- The matching loop, extensionally: one entry per matching signature,
in registry order, carrying the pattern text, the matched substring and
the produced explanation. -/
theorem matchSignatures_eq_filterMap {t : String} :
    ∀ {sigs : List ErrorSig} {l : List MatchedError},
      matchSignatures sigs t = .ok l →
      l = sigs.filterMap (fun sg =>
        match search true sg.regex t with
        | none => none
        | some (m, c) => (sg.explain (toPyMatch sg.regex m c)).toOption.map
            (fun e => ⟨sg.pattern, String.mk m, e⟩)) := by
  intro sigs
  induction sigs with
  | nil =>
    intro l h
    have h2 : (Except.ok [] : Except String (List MatchedError)) = .ok l := h
    injection h2 with h2
    subst h2
    rfl
  | cons sg rest ih =>
    intro l h
    unfold matchSignatures at h
    cases hsr : search true sg.regex t with
    | none =>
      rw [hsr] at h
      rw [List.filterMap_cons]
      rw [hsr]
      exact ih h
    | some p =>
      obtain ⟨m, c⟩ := p
      rw [hsr] at h
      have hb : (sg.explain (toPyMatch sg.regex m c) >>= fun expl =>
          matchSignatures rest t >>= fun tail =>
          Except.ok (⟨sg.pattern, String.mk m, expl⟩ :: tail)) = .ok l := h
      cases he : sg.explain (toPyMatch sg.regex m c) with
      | error e =>
        rw [he] at hb
        cases (show (Except.error e : Except String (List MatchedError)) = .ok l from hb)
      | ok e =>
        rw [he, except_bind_ok] at hb
        cases hr : matchSignatures rest t with
        | error e2 =>
          rw [hr] at hb
          cases (show (Except.error e2 : Except String (List MatchedError)) = .ok l from hb)
        | ok tail =>
          rw [hr, except_bind_ok] at hb
          injection hb with hb
          subst hb
          have hfa : (match search true sg.regex t with
              | none => none
              | some (m, c) => (sg.explain (toPyMatch sg.regex m c)).toOption.map
                  (fun e => (⟨sg.pattern, String.mk m, e⟩ : MatchedError)))
              = some ⟨sg.pattern, String.mk m, e⟩ := by
            rw [hsr]
            show (sg.explain (toPyMatch sg.regex m c)).toOption.map
                (fun e => (⟨sg.pattern, String.mk m, e⟩ : MatchedError))
              = some ⟨sg.pattern, String.mk m, e⟩
            rw [he]
            rfl
          rw [List.filterMap_cons, hfa]
          show (⟨sg.pattern, String.mk m, e⟩ : MatchedError) :: tail =
            ⟨sg.pattern, String.mk m, e⟩ :: rest.filterMap _
          rw [ih hr]

/-! Helper facts about the fixed suggestion sentences: the four kinds of
sentence that can appear in `suggestions` start with four distinct
characters, so membership pins down provenance. -/

theorem string_data_append (s t : String) : (s ++ t).data = s.data ++ t.data := rfl

theorem locationMsg_head (f : StackFrame) :
    (locationMsg f).data.head? = some 'E' := by
  have h : (locationMsg f).data = 'E' ::
      ("rror originated in " ++ f.file ++ ":" ++ f.line ++ " in function "
        ++ f.function).data := rfl
  rw [h]
  rfl

theorem ne_of_head {s t : String} (h : s.data.head? ≠ t.data.head?) : s ≠ t :=
  fun he => h (by rw [he])

theorem locationMsg_ne_noPatterns (f : StackFrame) :
    locationMsg f ≠ NO_PATTERNS_MSG :=
  ne_of_head (by rw [locationMsg_head]; decide)

theorem locationMsg_notMem_generic (f : StackFrame) :
    locationMsg f ∉ GENERIC_SUGGESTIONS := by
  intro hmem
  have hh := locationMsg_head f
  simp only [GENERIC_SUGGESTIONS, List.mem_cons, List.not_mem_nil,
    or_false] at hmem
  rcases hmem with h | h | h <;> rw [h] at hh <;> exact absurd hh (by decide)

theorem noPatterns_notMem_generic : NO_PATTERNS_MSG ∉ GENERIC_SUGGESTIONS := by
  decide

/-- Inversion of a successful analysis: the rewrite step and the
matching loop succeeded, and the result is the assembled record. -/
theorem analyze_error_inv {log fmt : String} {r : AnalysisResult}
    (h : analyze_error log fmt = .ok r) :
    ∃ t l, resolveLogText (resolveFormat log fmt) log = .ok t ∧
      matchSignatures ERROR_PATTERNS t = .ok l ∧
      r = ⟨resolveFormat log fmt, l,
        suggestionsOf l (pyFrameList t ++ jsFrameList t),
        pyFrameList t ++ jsFrameList t⟩ := by
  cases ht : resolveLogText (resolveFormat log fmt) log with
  | error e =>
    simp only [analyze_error] at h
    rw [ht] at h
    cases (show (Except.error e : Except String AnalysisResult) = .ok r from h)
  | ok t =>
    cases hl : matchSignatures ERROR_PATTERNS t with
    | error e =>
      simp only [analyze_error] at h
      rw [ht, except_bind_ok, hl] at h
      cases (show (Except.error e : Except String AnalysisResult) = .ok r from h)
    | ok l =>
      have h2 := (analyze_error_eq ht hl).symm.trans h
      injection h2 with h2
      exact ⟨t, l, rfl, hl, h2.symm⟩

/-! Claim theorems. -/

/-- C2 counterexample: on the empty string with hint "auto" the analysis
yields FOUR suggestions, not three — the fixed "no known patterns"
sentence is prepended to the three generic ones, so the claim's
"exactly the three fixed generic suggestions and nothing else" is false
at this input. -/
theorem C2_counterexample :
    analyze_error "" "auto" =
      .ok ⟨"plain", [], NO_PATTERNS_MSG :: GENERIC_SUGGESTIONS, []⟩ ∧
    NO_PATTERNS_MSG :: GENERIC_SUGGESTIONS ≠ GENERIC_SUGGESTIONS := by
  exact ⟨rfl, by decide⟩

/-- C2 (amended): analyze on the empty string with hint "auto" returns
format `plain`, no errors, no frames, and the suggestions are exactly
the "no known patterns" sentence followed by the three fixed generic
debugging suggestions, in that order. -/
theorem C2_empty_input :
    analyze_error "" "auto" =
      .ok ⟨"plain", [], NO_PATTERNS_MSG :: GENERIC_SUGGESTIONS, []⟩ := rfl

/-- C1 counterexample: for the json mapping text whose message field
holds a Python frame line, frame extraction on the original text finds
nothing (the quotes are escaped there), yet the returned analysis
carries one frame — extracted from the rewritten text — so stackFrames
does not equal the extractor's output on the original input. -/
theorem C1_counterexample :
    analyze_error "\x7b\"message\": \"File \\\"a.py\\\", line 1, in f\"\x7d" "json" =
      .ok ⟨"json", [],
        [NO_PATTERNS_MSG, "Error originated in a.py:1 in function f"] ++
          GENERIC_SUGGESTIONS,
        [⟨"a.py", "1", "f"⟩]⟩ ∧
    extract_stack_frames "\x7b\"message\": \"File \\\"a.py\\\", line 1, in f\"\x7d" =
      .ok [] ∧
    ([⟨"a.py", "1", "f"⟩] : List StackFrame) ≠ [] := by
  exact ⟨rfl, rfl, by decide⟩

/-- C1 (amended): the stackFrames of a successful analysis are the
Stack Frame Extractor's output on the same (possibly rewritten) text
that signature matching used — not on the original input. -/
theorem C1_frames_from_matched_text :
    ∀ (log fmt : String) (r : AnalysisResult), analyze_error log fmt = .ok r →
      ∃ t, resolveLogText (resolveFormat log fmt) log = .ok t ∧
        extract_stack_frames t = .ok r.stack_frames := by
  intro log fmt r h
  obtain ⟨t, l, ht, hl, hr⟩ := analyze_error_inv h
  refine ⟨t, ht, ?_⟩
  rw [hr]
  exact extract_stack_frames_eq t

/-- C1 witness: the amended statement applied at a concrete input. -/
theorem C1_witness :
    ∃ t, resolveLogText (resolveFormat "x" "plain") "x" = .ok t ∧
      extract_stack_frames t =
        .ok (⟨"plain", [], NO_PATTERNS_MSG :: GENERIC_SUGGESTIONS, []⟩ :
          AnalysisResult).stack_frames :=
  C1_frames_from_matched_text "x" "plain" _ rfl

/-- C4 counterexample: the round trip throws.  On the valid json text
whose message field is the number 5, the rewrite step evaluates
`5 + " "`, a TypeError that `except json.JSONDecodeError` does not
catch, so `analyze` raises instead of returning a result. -/
theorem C4_counterexample :
    analyze_error "\x7b\"message\": 5\x7d" "auto" =
      .error "TypeError: unsupported operand type(s) for +" := rfl

/-- C4 (amended): `format(analyze(text))` evaluates without raising and
returns a string for every input and hint, except when the resolved
format is json and the text parses as a mapping whose message or error
field is present and not a string (and, outside this model, CPython
recursion-limit exhaustion on deeply nested payloads). -/
theorem C4_no_exception :
    ∀ (log fmt : String), jsonOkFields log fmt = true →
      ∃ r, analyze_error log fmt = .ok r ∧ ∃ s : String, format_analysis r = s := by
  intro log fmt h
  obtain ⟨r, hr⟩ := analyze_error_ok h
  exact ⟨r, hr, format_analysis r, rfl⟩

/-- C4 witness: the amended statement applied at a json input with a
string error field. -/
theorem C4_witness :
    ∃ r, analyze_error "\x7b\"error\": \"ValueError: bad\"\x7d" "auto" = .ok r ∧
      ∃ s : String, format_analysis r = s :=
  C4_no_exception "\x7b\"error\": \"ValueError: bad\"\x7d" "auto" (by decide)

theorem locationMsg_notMem_noPat_cons_generic (f : StackFrame) :
    locationMsg f ∉ NO_PATTERNS_MSG :: GENERIC_SUGGESTIONS := by
  intro h
  rcases List.mem_cons.mp h with h | h
  · exact locationMsg_ne_noPatterns f h
  · exact locationMsg_notMem_generic f h

/-- Structure of the suggestion list built by the analyzer, for every
combination of matched errors and extracted frames. -/
theorem suggestionsOf_spec (l : List MatchedError) (F : List StackFrame) :
    suggestionsOf l F ≠ [] ∧
    suggestionsOf l F = (if l = [] then [NO_PATTERNS_MSG] else []) ++
      (match F with
       | [] => []
       | f :: _ => [locationMsg f]) ++ GENERIC_SUGGESTIONS ∧
    (NO_PATTERNS_MSG ∈ suggestionsOf l F ↔ l = []) ∧
    (l = [] → (suggestionsOf l F).head? = some NO_PATTERNS_MSG) ∧
    (F = [] → ∀ f : StackFrame, locationMsg f ∉ suggestionsOf l F) ∧
    (∀ f rest, F = f :: rest →
      ∃ pre, suggestionsOf l F = pre ++ [locationMsg f] ++ GENERIC_SUGGESTIONS) ∧
    (∃ pre, suggestionsOf l F = pre ++ GENERIC_SUGGESTIONS) := by
  cases l with
  | nil =>
    cases F with
    | nil =>
      refine ⟨by simp [suggestionsOf, GENERIC_SUGGESTIONS],
        by simp [suggestionsOf],
        by simp [suggestionsOf],
        by simp [suggestionsOf],
        ?_, ?_, ⟨[NO_PATTERNS_MSG], by simp [suggestionsOf]⟩⟩
      · intro _ f hmem
        simp only [suggestionsOf, List.isEmpty_nil, if_true, List.nil_append,
          List.singleton_append] at hmem
        exact locationMsg_notMem_noPat_cons_generic f hmem
      · intro f rest hF
        simp at hF
    | cons f0 rest0 =>
      refine ⟨by simp [suggestionsOf, GENERIC_SUGGESTIONS],
        by simp [suggestionsOf],
        by simp [suggestionsOf],
        by simp [suggestionsOf],
        ?_, ?_, ⟨[NO_PATTERNS_MSG, locationMsg f0], by simp [suggestionsOf]⟩⟩
      · intro hF
        simp at hF
      · intro f rest hF
        injection hF with h1 _
        subst h1
        exact ⟨[NO_PATTERNS_MSG], by simp [suggestionsOf]⟩
  | cons e0 es =>
    cases F with
    | nil =>
      refine ⟨by simp [suggestionsOf, GENERIC_SUGGESTIONS],
        by simp [suggestionsOf],
        ?_,
        by intro hx; simp at hx,
        ?_, ?_, ⟨[], by simp [suggestionsOf]⟩⟩
      · simp only [suggestionsOf, List.isEmpty_cons, if_false]
        constructor
        · intro hmem
          simp only [Bool.false_eq_true, if_false, List.nil_append] at hmem
          exact absurd hmem noPatterns_notMem_generic
        · intro hx
          simp at hx
      · intro _ f hmem
        simp only [suggestionsOf, List.isEmpty_cons, Bool.false_eq_true,
          if_false, List.nil_append] at hmem
        exact locationMsg_notMem_generic f hmem
      · intro f rest hF
        simp at hF
    | cons f0 rest0 =>
      refine ⟨by simp [suggestionsOf, GENERIC_SUGGESTIONS],
        by simp [suggestionsOf],
        ?_,
        by intro hx; simp at hx,
        by intro hx; simp at hx,
        ?_, ⟨[locationMsg f0], by simp [suggestionsOf]⟩⟩
      · simp only [suggestionsOf, List.isEmpty_cons, Bool.false_eq_true,
          if_false, List.nil_append, List.singleton_append]
        constructor
        · intro hmem
          rcases List.mem_cons.mp hmem with hmem | hmem
          · exact absurd hmem.symm (locationMsg_ne_noPatterns f0)
          · exact absurd hmem noPatterns_notMem_generic
        · intro hx
          simp at hx
      · intro f rest hF
        injection hF with h1 _
        subst h1
        exact ⟨[], by simp [suggestionsOf]⟩

/-- C3: for every input and hint, the suggestions of a successful
analysis are never empty and have the fixed structure: the no-known-
patterns sentence appears, first, exactly when errorsFound is empty; a
location summary of the first frame appears, before the generic
suggestions, exactly when stackFrames is non-empty; and the three fixed
generic suggestions close the list in fixed order. -/
theorem C3_suggestions_invariant :
    ∀ (log fmt : String) (r : AnalysisResult), analyze_error log fmt = .ok r →
      r.suggestions ≠ [] ∧
      r.suggestions = (if r.errors_found = [] then [NO_PATTERNS_MSG] else []) ++
        (match r.stack_frames with
         | [] => []
         | f :: _ => [locationMsg f]) ++ GENERIC_SUGGESTIONS ∧
      (NO_PATTERNS_MSG ∈ r.suggestions ↔ r.errors_found = []) ∧
      (r.errors_found = [] → r.suggestions.head? = some NO_PATTERNS_MSG) ∧
      (r.stack_frames = [] → ∀ f : StackFrame, locationMsg f ∉ r.suggestions) ∧
      (∀ f rest, r.stack_frames = f :: rest →
        ∃ pre, r.suggestions = pre ++ [locationMsg f] ++ GENERIC_SUGGESTIONS) ∧
      (∃ pre, r.suggestions = pre ++ GENERIC_SUGGESTIONS) := by
  intro log fmt r h
  obtain ⟨t, l, ht, hl, hr⟩ := analyze_error_inv h
  subst hr
  exact suggestionsOf_spec l (pyFrameList t ++ jsFrameList t)

/-- C3 witness: the invariant applied at a concrete input whose analysis
has one error and one frame. -/
theorem C3_witness :
    (⟨"plain",
      [⟨"KeyError: ['\\\"]?(\\w+)['\\\"]?", "KeyError: 'k'",
        "Dictionary key 'k' not found. Use .get() for safe access or check if key exists."⟩],
      [locationMsg ⟨"a.py", "1", "f"⟩] ++ GENERIC_SUGGESTIONS,
      [⟨"a.py", "1", "f"⟩]⟩ : AnalysisResult).suggestions ≠ [] ∧
    (⟨"plain",
      [⟨"KeyError: ['\\\"]?(\\w+)['\\\"]?", "KeyError: 'k'",
        "Dictionary key 'k' not found. Use .get() for safe access or check if key exists."⟩],
      [locationMsg ⟨"a.py", "1", "f"⟩] ++ GENERIC_SUGGESTIONS,
      [⟨"a.py", "1", "f"⟩]⟩ : AnalysisResult).suggestions =
      (if (⟨"plain",
        [⟨"KeyError: ['\\\"]?(\\w+)['\\\"]?", "KeyError: 'k'",
          "Dictionary key 'k' not found. Use .get() for safe access or check if key exists."⟩],
        [locationMsg ⟨"a.py", "1", "f"⟩] ++ GENERIC_SUGGESTIONS,
        [⟨"a.py", "1", "f"⟩]⟩ : AnalysisResult).errors_found = [] then
          [NO_PATTERNS_MSG] else []) ++
      (match (⟨"plain",
        [⟨"KeyError: ['\\\"]?(\\w+)['\\\"]?", "KeyError: 'k'",
          "Dictionary key 'k' not found. Use .get() for safe access or check if key exists."⟩],
        [locationMsg ⟨"a.py", "1", "f"⟩] ++ GENERIC_SUGGESTIONS,
        [⟨"a.py", "1", "f"⟩]⟩ : AnalysisResult).stack_frames with
       | [] => []
       | f :: _ => [locationMsg f]) ++ GENERIC_SUGGESTIONS :=
  let r := C3_suggestions_invariant "KeyError: 'k'\nFile \"a.py\", line 1, in f"
    "plain" _ rfl
  ⟨r.1, r.2.1⟩

/-- C5: the signature-matching phase of a successful analysis is exactly
one case-insensitive first-occurrence search per signature against the
resolved text, in registry order, with one MatchedError (pattern text,
matched substring, produced explanation) per matching signature and no
early termination; and two signatures can match overlapping substrings
of one text (shown by a text with two matches where one matched
substring is a suffix of the other). -/
theorem C5_signature_matching :
    (∀ (log fmt : String) (r : AnalysisResult), analyze_error log fmt = .ok r →
      ∃ t, resolveLogText (resolveFormat log fmt) log = .ok t ∧
        r.errors_found = ERROR_PATTERNS.filterMap (fun sg =>
          match search true sg.regex t with
          | none => none
          | some (m, c) => (sg.explain (toPyMatch sg.regex m c)).toOption.map
              (fun e => ⟨sg.pattern, String.mk m, e⟩))) ∧
    (∃ e1 e2, analyze_error "ValueError: ECONNREFUSED" "plain" =
        .ok ⟨"plain", [e1, e2], GENERIC_SUGGESTIONS, []⟩ ∧
      e1.matchText = "ValueError: ECONNREFUSED" ∧
      e2.matchText = "ECONNREFUSED" ∧
      e2.matchText.data.isSuffixOf e1.matchText.data = true) := by
  constructor
  · intro log fmt r h
    obtain ⟨t, l, ht, hl, hr⟩ := analyze_error_inv h
    refine ⟨t, ht, ?_⟩
    rw [hr]
    exact matchSignatures_eq_filterMap hl
  · refine ⟨⟨"ValueError: (.+)", "ValueError: ECONNREFUSED",
      "Invalid value: ECONNREFUSED. Validate input data before processing."⟩,
      ⟨"ConnectionRefusedError|ECONNREFUSED", "ECONNREFUSED",
        "Connection refused. The target service may be down or the port may be wrong."⟩,
      rfl, rfl, rfl, by decide⟩

/-- C5 witness: the characterization applied at a concrete input. -/
theorem C5_witness :
    ∃ t, resolveLogText (resolveFormat "x" "plain") "x" = .ok t ∧
      (⟨"plain", [], NO_PATTERNS_MSG :: GENERIC_SUGGESTIONS, []⟩ :
          AnalysisResult).errors_found =
        ERROR_PATTERNS.filterMap (fun sg =>
          match search true sg.regex t with
          | none => none
          | some (m, c) => (sg.explain (toPyMatch sg.regex m c)).toOption.map
              (fun e => ⟨sg.pattern, String.mk m, e⟩)) :=
  C5_signature_matching.1 "x" "plain" _ rfl

/-- C6: the detector equals the spec's ordered chain of rules (json,
then the Python traceback header, then the JavaScript call-frame
pattern, then plain), always returns one of the four tags, and a failed
json parse is absorbed: detection falls through to the remaining rules. -/
theorem C6_detect_priority :
    ∀ t : String,
      detect_log_format t = detectSpec t ∧
      (detect_log_format t = "json" ∨ detect_log_format t = "python" ∨
       detect_log_format t = "javascript" ∨ detect_log_format t = "plain") ∧
      (jsonLoads t = none →
        detect_log_format t =
          if containsSub t.data TRACEBACK_HEADER.data then "python"
          else if (search false jsDetectPat t).isSome then "javascript"
          else "plain") := by
  intro t
  refine ⟨?_, ?_, ?_⟩
  · simp only [detect_log_format, detectSpec, firstRule, detectRule1,
      detectRule2, detectRule3]
    by_cases h1 : (jsonLoads t).isSome <;>
      by_cases h2 : containsSub t.data TRACEBACK_HEADER.data <;>
        by_cases h3 : (search false jsDetectPat t).isSome <;>
          simp [h1, h2, h3, Option.orElse]
  · unfold detect_log_format
    by_cases h1 : (jsonLoads t).isSome <;>
      by_cases h2 : containsSub t.data TRACEBACK_HEADER.data <;>
        by_cases h3 : (search false jsDetectPat t).isSome <;>
          simp [h1, h2, h3]
  · intro hj
    unfold detect_log_format
    rw [hj]
    rfl

/-- C6 witness: on a malformed structured payload the parse failure is
absorbed and detection returns plain. -/
theorem C6_witness :
    detect_log_format "[1," = detectSpec "[1," ∧ detect_log_format "[1," = "plain" := by
  have h := C6_detect_priority "[1,"
  exact ⟨h.1, (h.2.2 rfl).trans rfl⟩

/-- C7: an HTTPError match whose captured three-digit code is 404
produces exactly the fixed 404 explanation; a captured 599 produces the
generic fallback "HTTP error 599. ..." and no failure; the fixed table
maps 404 and falls back on 599; the registry's HTTPError entry uses
exactly this pattern and producer; and every successful search of the
HTTPError pattern captures exactly three digits in group 1. -/
theorem C7_http_mapping :
    (∀ pm : PyMatch, pm.ngroups = 1 → pm.caps 1 = some "404" →
      explHttpError pm = .ok "Not Found - The resource doesn't exist. Verify the URL.") ∧
    (∀ pm : PyMatch, pm.ngroups = 1 → pm.caps 1 = some "599" →
      explHttpError pm = .ok "HTTP error 599. Check the API documentation.") ∧
    get_http_error_explanation 404 =
      "Not Found - The resource doesn't exist. Verify the URL." ∧
    get_http_error_explanation 599 = "HTTP error 599. Check the API documentation." ∧
    (∃ sg, sg ∈ ERROR_PATTERNS ∧ sg.regex = reHttpError ∧
      sg.explain = explHttpError) ∧
    (∀ (t : String) (m : List Char) (c : Caps),
      search true reHttpError t = some (m, c) →
      ∃ d, c 1 = some d ∧ d.length = 3 ∧ d.all Char.isDigit = true) := by
  refine ⟨?_, ?_, rfl, rfl, ?_, ?_⟩
  · intro pm h1 h2
    unfold explHttpError
    rw [pyGroup_ok_le (by decide) (by omega), except_bind_ok, h2]
    rfl
  · intro pm h1 h2
    unfold explHttpError
    rw [pyGroup_ok_le (by decide) (by omega), except_bind_ok, h2]
    rfl
  · exact ⟨⟨"(?:requests\\.exceptions\\.)?HTTPError.*(\\d\x7b3\x7d)",
      reHttpError, explHttpError⟩, by simp [ERROR_PATTERNS], rfl, rfl⟩
  · intro t m c hs
    obtain ⟨u, sfx, hm, _⟩ := search_sound hs
    exact reHttpError_cap hm

/-- C7 witness: the 404 clause applied at a concrete match object. -/
theorem C7_witness :
    explHttpError ⟨"HTTPError 404", 1,
        fun i => if i = 1 then some "404" else none⟩ =
      .ok "Not Found - The resource doesn't exist. Verify the URL." :=
  C7_http_mapping.1 ⟨"HTTPError 404", 1,
    fun i => if i = 1 then some "404" else none⟩ rfl rfl

/-- C8: frame extraction is dialect-major — every Python-dialect frame
precedes every JavaScript-dialect frame regardless of textual position;
within each dialect the scans emit matches at strictly increasing text
positions (order of appearance, no deduplication); and a text with no
frames of either dialect yields the empty sequence, not an error. -/
theorem C8_frame_ordering :
    ∀ (log : String) (l : List StackFrame), extract_stack_frames log = .ok l →
      l = pyFrameList log ++ jsFrameList log ∧
      ((finditer false pyFramePat log).map (fun q => q.1)).Pairwise (· < ·) ∧
      ((finditer false jsFramePat log).map (fun q => q.1)).Pairwise (· < ·) ∧
      (pyFrameList log = [] → jsFrameList log = [] → l = []) := by
  intro log l h
  have h2 := (extract_stack_frames_eq log).symm.trans h
  injection h2 with h2
  refine ⟨h2.symm, finditer_pos_sorted _ _ _, finditer_pos_sorted _ _ _, ?_⟩
  intro h3 h4
  rw [← h2, h3, h4]
  rfl

/-- C8 witness: on a text whose JavaScript frame line textually precedes
its Python frame line, the Python frame still comes first. -/
theorem C8_witness :
    ([⟨"b.py", "3", "g"⟩, ⟨"a.js", "1", "f"⟩] : List StackFrame) =
      pyFrameList "at f (a.js:1:2)\nFile \"b.py\", line 3, in g" ++
      jsFrameList "at f (a.js:1:2)\nFile \"b.py\", line 3, in g" ∧
    ((finditer false pyFramePat
        "at f (a.js:1:2)\nFile \"b.py\", line 3, in g").map (fun q => q.1)).Pairwise (· < ·) ∧
    ((finditer false jsFramePat
        "at f (a.js:1:2)\nFile \"b.py\", line 3, in g").map (fun q => q.1)).Pairwise (· < ·) ∧
    (pyFrameList "at f (a.js:1:2)\nFile \"b.py\", line 3, in g" = [] →
      jsFrameList "at f (a.js:1:2)\nFile \"b.py\", line 3, in g" = [] →
      ([⟨"b.py", "3", "g"⟩, ⟨"a.js", "1", "f"⟩] : List StackFrame) = []) :=
  C8_frame_ordering "at f (a.js:1:2)\nFile \"b.py\", line 3, in g" _ rfl

/-- C9: every failure path of execute returns success = false with empty
output — the fixed message for an empty log argument, the read error
folded into "Failed to read log file: " for an unreadable file, and the
exception text appended to "Analysis failed: " for an analysis failure;
and output is empty whenever success is false. -/
theorem C9_execute_failure :
    ∀ (logA fmtA : String) (isf : Bool) (rr : Except String String),
      (logA = "" → execute logA fmtA isf rr =
        ⟨false, "", some "No log input provided. Use log='...' to provide error text."⟩) ∧
      (logA ≠ "" → ∀ e, isf = true → rr = .error e →
        execute logA fmtA isf rr =
          ⟨false, "", some ("Failed to read log file: " ++ e)⟩) ∧
      (logA ≠ "" → ∀ text e, (if isf then rr else .ok logA) = .ok text →
        analyze_error text fmtA = .error e →
        execute logA fmtA isf rr = ⟨false, "", some ("Analysis failed: " ++ e)⟩) ∧
      ((execute logA fmtA isf rr).success = false →
        (execute logA fmtA isf rr).output = "") := by
  intro logA fmtA isf rr
  refine ⟨?_, ?_, ?_, ?_⟩
  · intro h
    subst h
    rfl
  · intro h e hisf hrr
    subst hisf
    subst hrr
    unfold execute
    rw [if_neg (by simpa using h)]
    rfl
  · intro h text e hc ha
    unfold execute
    rw [if_neg (by simpa using h), hc]
    show (match analyze_error text fmtA with
      | .ok analysis => (⟨true, format_analysis analysis, none⟩ : CommandResult)
      | .error e => ⟨false, "", some ("Analysis failed: " ++ e)⟩) = _
    rw [ha]
  · by_cases h0 : logA = ""
    · subst h0
      intro _
      rfl
    · cases hc : (if isf then rr else .ok logA) with
      | error e =>
        have hx : execute logA fmtA isf rr =
            ⟨false, "", some ("Failed to read log file: " ++ e)⟩ := by
          unfold execute
          rw [if_neg (by simpa using h0), hc]
        rw [hx]
        intro _
        rfl
      | ok text =>
        cases ha : analyze_error text fmtA with
        | ok analysis =>
          have hx : execute logA fmtA isf rr =
              ⟨true, format_analysis analysis, none⟩ := by
            unfold execute
            rw [if_neg (by simpa using h0), hc]
            show (match analyze_error text fmtA with
              | .ok analysis => (⟨true, format_analysis analysis, none⟩ : CommandResult)
              | .error e => ⟨false, "", some ("Analysis failed: " ++ e)⟩) = _
            rw [ha]
          rw [hx]
          intro hs
          exact Bool.noConfusion hs
        | error e =>
          have hx : execute logA fmtA isf rr =
              ⟨false, "", some ("Analysis failed: " ++ e)⟩ := by
            unfold execute
            rw [if_neg (by simpa using h0), hc]
            show (match analyze_error text fmtA with
              | .ok analysis => (⟨true, format_analysis analysis, none⟩ : CommandResult)
              | .error e => ⟨false, "", some ("Analysis failed: " ++ e)⟩) = _
            rw [ha]
          rw [hx]
          intro _
          rfl

/-- C9 witness: the unreadable-file path at concrete arguments. -/
theorem C9_witness :
    execute "x" "plain" true (.error "boom") =
      ⟨false, "", some ("Failed to read log file: " ++ "boom")⟩ :=
  (C9_execute_failure "x" "plain" true (.error "boom")).2.1
    (by decide) "boom" rfl rfl

/-- C10: when the resolved format is json but the text parses as a
non-mapping json value, the text used for signature matching stays the
original input, the analysis completes normally, and formatDetected is
still json. -/
theorem C10_json_nonmapping :
    ∀ (log fmt : String) (v : PyJson), resolveFormat log fmt = "json" →
      jsonLoads log = some v → (∀ kvs, v ≠ .obj kvs) →
      resolveLogText (resolveFormat log fmt) log = .ok log ∧
      ∃ r, analyze_error log fmt = .ok r ∧ r.format_detected = "json" ∧
        matchSignatures ERROR_PATTERNS log = .ok r.errors_found ∧
        extract_stack_frames log = .ok r.stack_frames := by
  intro log fmt v hf hL hv
  have ht : resolveLogText (resolveFormat log fmt) log = .ok log := by
    rw [hf]
    exact resolveLogText_json_nonobj hL hv
  obtain ⟨l, hl⟩ := matchSignatures_ok log ERROR_PATTERNS (fun _ hx => hx)
  have ha := analyze_error_eq ht hl
  refine ⟨ht, _, ha, ?_, ?_, ?_⟩
  · show resolveFormat log fmt = "json"
    exact hf
  · show matchSignatures ERROR_PATTERNS log = .ok l
    exact hl
  · show extract_stack_frames log = .ok (pyFrameList log ++ jsFrameList log)
    exact extract_stack_frames_eq log

/-- C10 witness: applied at a json array input with the hint json. -/
theorem C10_witness :
    resolveLogText (resolveFormat "[1, 2]" "json") "[1, 2]" = .ok "[1, 2]" ∧
    ∃ r, analyze_error "[1, 2]" "json" = .ok r ∧ r.format_detected = "json" ∧
      matchSignatures ERROR_PATTERNS "[1, 2]" = .ok r.errors_found ∧
      extract_stack_frames "[1, 2]" = .ok r.stack_frames :=
  C10_json_nonmapping "[1, 2]" "json" (.arr [.num "1", .num "2"]) rfl rfl
    (fun kvs h => by cases h)

end AnalyzeErrors
